import Mathlib

/-!
# Verification of the DASPER damage-assessment core

Shallow embedding of the DASPER backend's cost-estimation engines
(`enhanced_cost_estimation.py`, `volume_based_cost_estimation.py`), the
multi-method estimation fusion (`building_area_estimator.py`,
`enhanced_building_analyzer.py`) and the model lifecycle manager
(`model_manager.py`), together with theorems settling the frozen claims.

Conventions of the embedding:
* Python `float` arithmetic is idealised as exact arithmetic over `ℚ`
  (fusion layer) respectively `ℝ` (cost layer, where `np.power` with the
  fractional exponents 1.5 and 1.3 forces real exponentiation `Real.rpow`).
* The cosmetic `round(x, 2)` / `round(x, 3)` display rounding the Python code
  applies when building its result dictionaries is omitted: all claims are
  stated up to floating-point tolerance, and every divergence established
  below is many orders of magnitude larger than that rounding.
* Timestamp strings and other display-only dictionary entries are omitted
  from the result records.
-/

set_option maxHeartbeats 1000000

namespace DASPER

/-! ## Python-value fragment

A small model of the dynamically typed values that reach
`calculate_repair_cost` from the web layer, used for the error-policy claim:
`float(x)` succeeds on floats and ints and raises on `None` (and on the
non-numeric strings the claim is about). -/

inductive PyVal where
  | float (q : ℚ)
  | int (n : ℤ)
  | str (s : String)
  | none
deriving DecidableEq

/-- Python's `float(x)` conversion. `float` and `int` convert; `None` raises
`TypeError`; a string is modelled as raising `ValueError` (this models the
malformed, non-numeric strings of the error-handling claim; parseable numeric
strings are not needed by any claim). -/
def pyFloat : PyVal → Except String ℚ
  | .float q => .ok q
  | .int n => .ok (n : ℚ)
  | .str _ => .error "ValueError: could not convert string to float"
  | .none => .error "TypeError: float() argument must be a string or a number, not NoneType"

/-- Python dict `.get(key, default)` followed by `float(...)` over a dict of
dynamic values. -/
def pyGetFloat (d : List (String × PyVal)) (key : String) (dflt : ℚ) : Except String ℚ :=
  match d.find? (fun kv => kv.1 = key) with
  | some kv => pyFloat kv.2
  | Option.none => .ok dflt

/-! ## Substring matching

Python's `key in damage_lower` substring test, modelled on character lists. -/

/-- `containsSub needle hay` is Python's `needle in hay` substring test. -/
def containsSub (needle : List Char) : List Char → Bool
  | [] => needle.isEmpty
  | c :: rest => needle.isPrefixOf (c :: rest) || containsSub needle rest

/-- `keyIn key s` models Python's `key in s.lower()`. -/
def keyIn (key s : String) : Bool :=
  containsSub key.data s.toLower.data

/-! ## Damage-type multiplier

`_calculate_damage_multiplier` and the `damage_multipliers` table, identical
in `enhanced_cost_estimation.py` (lines 36-46, 298-310) and
`volume_based_cost_estimation.py` (lines 58-68, 487-499). -/

/-- The `self.damage_multipliers` table, in insertion order. -/
def damage_multipliers : List (String × ℚ) :=
  [("structural", 1.1), ("flood", 1.1), ("fire", 1.2), ("earthquake", 1.3),
   ("wind", 1.05), ("settlement", 1.1), ("cracks", 1.02), ("water", 1.1),
   ("collapse", 1.4)]

/-- One iteration of the outer loop of `_calculate_damage_multiplier`: fold
the table over one damage-type string, taking `max(multiplier, value)` on
every substring match. -/
def damageStep (m : ℚ) (dt : String) : ℚ :=
  damage_multipliers.foldl (fun m2 kv => if keyIn kv.1 dt then max m2 kv.2 else m2) m

/-- `_calculate_damage_multiplier(damage_types)`: `1.0` if the list is falsy,
otherwise the nested fold over damage types and the multiplier table. -/
def calculate_damage_multiplier (damage_types : List String) : ℚ :=
  if damage_types.isEmpty then 1
  else damage_types.foldl damageStep 1

/-- Specification-side restatement of the claimed damage-multiplier formula:
the maximum over the table entries whose keyword occurs as a substring of some
supplied damage-type string, with floor `1.0` (which is also the value for an
empty damage-type list). -/
def damage_multiplier_spec (damage_types : List String) : ℚ :=
  ((damage_multipliers.filter
      (fun kv => damage_types.any (fun dt => keyIn kv.1 dt))).map Prod.snd).foldr max 1

/-! ## Estimation fusion: clip and variance -/

/-- `np.clip(x, lo, hi)`. -/
def clip (x lo hi : ℚ) : ℚ := min (max x lo) hi

/-- `np.var` (population variance) of a list. -/
def listVar (l : List ℚ) : ℚ :=
  if l.isEmpty then 0
  else
    let n : ℚ := l.length
    let mean := l.sum / n
    (l.map (fun x => (x - mean) ^ 2)).sum / n

/-- `sum(w * e for w, e in zip(weights[:len(estimates)], estimates))` together
with the division by `sum(weights[:len(estimates)])`, exactly as all three
fusion sites compute their weighted average (the weight vector is truncated,
not renormalised, when estimators abstain). -/
def weightedAverage (weights estimates : List ℚ) : ℚ :=
  let ws := weights.take estimates.length
  ((ws.zip estimates).foldl (fun a p => a + p.1 * p.2) 0) / ws.sum

/-- A fused geometry estimate: the fields of the returned dictionary that the
claims are about. -/
structure GeometryEstimate where
  value : ℚ
  confidence : ℚ
  method : String
deriving DecidableEq

/-- A `{min, avg, max}` defaults row. -/
structure DefaultsRow where
  min : ℚ
  avg : ℚ
  max : ℚ
deriving DecidableEq

end DASPER

namespace DASPER.AreaEst

/-! ## `building_area_estimator.py` — `BuildingAreaEstimator.estimate_area`

The three CV primitives (`_estimate_from_edges`, `_estimate_from_segmentation`,
`_estimate_from_features`) consume an image and are opaque to the fusion
logic; they enter the embedding as the raw scalar inputs `edge`, `segment`,
`feature` (`0` on abstention, as in the source). Likewise
`_estimate_damage_impact` enters as the scalar `damage_factor` (the source
guarantees it lies in `[0, 0.5]`: it is `min(texture*0.1 + dark*0.2, 0.5)`
of non-negative terms, and `0.0` on error). -/

/-- `self.building_defaults['residential']` rows keyed by region type. -/
def residentialDefaults (rt : String) : DefaultsRow :=
  if rt = "Pakistan_Urban" then ⟨80, 150, 500⟩
  else if rt = "Pakistan_Rural" then ⟨60, 120, 300⟩
  else if rt = "Pakistan_SEZ" then ⟨100, 200, 600⟩
  else ⟨100, 200, 600⟩

/-- `self.building_defaults['commercial']` rows keyed by region type. -/
def commercialDefaults (rt : String) : DefaultsRow :=
  if rt = "Pakistan_Urban" then ⟨200, 500, 2000⟩
  else if rt = "Pakistan_Rural" then ⟨100, 300, 1000⟩
  else if rt = "Pakistan_SEZ" then ⟨300, 800, 2500⟩
  else ⟨300, 800, 3000⟩

/-- `self.building_defaults['industrial']` rows keyed by region type. -/
def industrialDefaults (rt : String) : DefaultsRow :=
  if rt = "Pakistan_Urban" then ⟨500, 1500, 5000⟩
  else if rt = "Pakistan_Rural" then ⟨300, 800, 2000⟩
  else if rt = "Pakistan_SEZ" then ⟨800, 2000, 6000⟩
  else ⟨1000, 2500, 8000⟩

/-- `_get_defaults(building_type, region_type)`: unknown building types fall
back to `'residential'`, unknown region types to the `'default'` row. -/
def get_defaults (bt rt : String) : DefaultsRow :=
  if bt = "commercial" then commercialDefaults rt
  else if bt = "industrial" then industrialDefaults rt
  else residentialDefaults rt

/-- `estimate_area` (lines 41-108): filter out non-positive estimates, fuse
with the truncated weight vector `[0.3, 0.4, 0.3]`, clip to the type/region
bounds, derive the confidence from the variance (`0.5` when only one estimate
survives), fall back to the default average otherwise, and finally apply the
damage-impact adjustment `* (1 + damage_factor * 0.1)` to the value. -/
def estimate_area (edge segment feature : ℚ) (bt rt : String) (damage_factor : ℚ) :
    GeometryEstimate :=
  let defaults := get_defaults bt rt
  let estimates := [edge, segment, feature].filter (fun x => 0 < x)
  if estimates.isEmpty then
    ⟨defaults.avg * (1 + damage_factor * 0.1), 0.3, "default_fallback"⟩
  else
    let estimated := weightedAverage [0.3, 0.4, 0.3] estimates
    let estimated := clip estimated defaults.min defaults.max
    let confidence :=
      if 1 < estimates.length then clip (1 / (1 + listVar estimates / 1000)) 0.3 0.95
      else 0.5
    ⟨estimated * (1 + damage_factor * 0.1), confidence, "multi_method_fusion"⟩

end DASPER.AreaEst

namespace DASPER.HeightEst

/-! ## `enhanced_building_analyzer.py` — `_estimate_building_height`

The four primitives (`_estimate_height_from_depth`, `..._from_shadows`,
`..._from_perspective`, `..._from_features`) enter as the raw scalar inputs
`depth`, `shadow`, `perspective`, `feature` (`0` on abstention). -/

/-- `self.building_height_defaults['residential']`. -/
def residentialDefaults (rt : String) : DefaultsRow :=
  if rt = "Pakistan_Urban" then ⟨3, 8, 30⟩
  else if rt = "Pakistan_Rural" then ⟨2.5, 5, 20⟩
  else if rt = "Pakistan_SEZ" then ⟨4, 10, 35⟩
  else ⟨3, 8, 30⟩

/-- `self.building_height_defaults['commercial']`. -/
def commercialDefaults (rt : String) : DefaultsRow :=
  if rt = "Pakistan_Urban" then ⟨4, 15, 80⟩
  else if rt = "Pakistan_Rural" then ⟨3, 10, 40⟩
  else if rt = "Pakistan_SEZ" then ⟨6, 20, 100⟩
  else ⟨4, 15, 80⟩

/-- `self.building_height_defaults['industrial']`. -/
def industrialDefaults (rt : String) : DefaultsRow :=
  if rt = "Pakistan_Urban" then ⟨6, 18, 60⟩
  else if rt = "Pakistan_Rural" then ⟨4, 12, 40⟩
  else if rt = "Pakistan_SEZ" then ⟨8, 22, 80⟩
  else ⟨6, 18, 60⟩

/-- `_get_height_defaults(building_type, region_type)`. -/
def get_height_defaults (bt rt : String) : DefaultsRow :=
  if bt = "commercial" then commercialDefaults rt
  else if bt = "industrial" then industrialDefaults rt
  else residentialDefaults rt

/-- `_estimate_building_height` (lines 137-213): fuse the positive estimates
with weights `[0.4, 0.2, 0.2, 0.2]` (when the depth estimate is positive,
otherwise `[0.3, 0.3, 0.4]`), snap obviously wrong fused values
(`< 0.5 → 2.0`, `> 1000 → 100.0`), and derive confidence from variance with
normalisation constant 10 and clip band `[0.3, 0.9]` (`0.5` for a single
estimate, `0.3` and the default average on the fallback path). -/
def estimate_building_height (depth shadow perspective feature : ℚ) (bt rt : String) :
    GeometryEstimate :=
  let defaults := get_height_defaults bt rt
  let estimates := [depth, shadow, perspective, feature].filter (fun x => 0 < x)
  if estimates.isEmpty then
    ⟨defaults.avg, 0.3, "default_fallback"⟩
  else
    let weights : List ℚ := if 0 < depth then [0.4, 0.2, 0.2, 0.2] else [0.3, 0.3, 0.4]
    let estimated := weightedAverage weights estimates
    let estimated := if estimated < 0.5 then 2 else if 1000 < estimated then 100 else estimated
    let confidence :=
      if 1 < estimates.length then clip (1 / (1 + listVar estimates / 10)) 0.3 0.9
      else 0.5
    ⟨estimated, confidence, "multi_method_fusion"⟩

end DASPER.HeightEst

namespace DASPER.EnhAreaEst

/-! ## `enhanced_building_analyzer.py` — `_estimate_building_area`

The primitives `_estimate_area_traditional`, `_estimate_area_from_satellite`
and `_estimate_area_enhanced_segmentation` enter as the raw inputs
`traditional`, `satellite`, `enhanced` (`0` on abstention). -/

/-- `_get_area_defaults` rows for `'residential'`. -/
def residentialDefaults (rt : String) : DefaultsRow :=
  if rt = "Pakistan_Urban" then ⟨80, 150, 2000⟩
  else if rt = "Pakistan_Rural" then ⟨60, 120, 1500⟩
  else if rt = "Pakistan_SEZ" then ⟨100, 200, 2500⟩
  else ⟨100, 200, 2000⟩

/-- `_get_area_defaults` rows for `'commercial'`. -/
def commercialDefaults (rt : String) : DefaultsRow :=
  if rt = "Pakistan_Urban" then ⟨200, 500, 5000⟩
  else if rt = "Pakistan_Rural" then ⟨100, 300, 3000⟩
  else if rt = "Pakistan_SEZ" then ⟨300, 800, 6000⟩
  else ⟨300, 800, 5000⟩

/-- `_get_area_defaults` rows for `'industrial'`. -/
def industrialDefaults (rt : String) : DefaultsRow :=
  if rt = "Pakistan_Urban" then ⟨500, 1500, 10000⟩
  else if rt = "Pakistan_Rural" then ⟨300, 800, 5000⟩
  else if rt = "Pakistan_SEZ" then ⟨800, 2000, 12000⟩
  else ⟨1000, 2500, 10000⟩

/-- `_get_area_defaults(building_type, region_type)`. -/
def get_area_defaults (bt rt : String) : DefaultsRow :=
  if bt = "commercial" then commercialDefaults rt
  else if bt = "industrial" then industrialDefaults rt
  else residentialDefaults rt

/-- `_estimate_building_area` (lines 444-521): choose the weight vector from
the satellite/traditional discrepancy, fuse the positive estimates, snap
obviously wrong values (`< 1 → 50.0`, `> 100000 → 10000.0`), variance-derived
confidence with constant 1000 and clip band `[0.3, 0.95]` (`0.5` when a
single estimate survives; default average and `0.3` on the fallback path).
`traditional` is positive whenever the underlying estimator ran (it returns a
clamped value or a default average), so the discrepancy ratio's division is
total in practice; `ℚ`-division by zero yielding `0` stands in for the
otherwise-unreachable `ZeroDivisionError`. -/
def estimate_building_area (traditional satellite enhanced : ℚ) (bt rt : String) :
    GeometryEstimate :=
  let estimates := [traditional, satellite, enhanced].filter (fun x => 0 < x)
  if estimates.isEmpty then
    ⟨(get_area_defaults bt rt).avg, 0.3, "default_fallback"⟩
  else
    let weights : List ℚ :=
      if 0 < satellite then
        if 2 < |satellite - traditional| / traditional then [0.7, 0.2, 0.1]
        else [0.4, 0.4, 0.2]
      else [0.6, 0, 0.4]
    let estimated := weightedAverage weights estimates
    let estimated := if estimated < 1 then 50 else if 100000 < estimated then 10000 else estimated
    let confidence :=
      if 1 < estimates.length then clip (1 / (1 + listVar estimates / 1000)) 0.3 0.95
      else 0.5
    ⟨estimated, confidence, "multi_method_fusion"⟩

end DASPER.EnhAreaEst

namespace DASPER

/-! ## Cost engines

`np.power(x, 1.5)` / `np.power(x, 1.3)` force real exponentiation, so the
cost layer lives in `ℝ` (`Real.rpow`); the constant tables stay in `ℚ` and
are cast where used. -/

/-- A `{'min': _, 'max': _}` unit-cost row (PKR per sqm or per cubic meter). -/
structure CostRange where
  min : ℚ
  max : ℚ
deriving DecidableEq

/-- A per-building-type row of the base-cost tables. -/
structure BaseCostTable where
  structural : CostRange
  nonStructural : CostRange
  content : CostRange
deriving DecidableEq

/-- The `regional_data` dict consumed by
`EnhancedRegionalCostEstimator._calculate_regional_multiplier`. -/
structure RegionalProfile where
  construction : ℝ
  materials : ℝ
  labor : ℝ
  inflation_factor : ℝ
  market_volatility : ℝ

/-- Domain hypothesis on a regional profile: the spec constrains the weights
to `(0, 2]` nominally centered at `1`; non-negativity is all the invariants
need. -/
def RegionalProfile.Nonneg (r : RegionalProfile) : Prop :=
  0 ≤ r.construction ∧ 0 ≤ r.materials ∧ 0 ≤ r.labor ∧ 0 ≤ r.inflation_factor ∧
    0 ≤ r.market_volatility

/-- Non-negativity of an optional regional profile. -/
def profileNonneg : Option RegionalProfile → Prop
  | Option.none => True
  | some r => r.Nonneg

/-- The numeric fields of the cost-breakdown dictionary the claims are about
(identical in both engines up to the `_usd`/`_pkr` key suffix). -/
structure CostBreakdown where
  structural_cost : ℝ
  non_structural_cost : ℝ
  content_cost : ℝ
  demolition_cost : ℝ
  professional_fees : ℝ
  permit_costs : ℝ
  emergency_response_cost : ℝ
  labor_cost : ℝ
  material_cost : ℝ
  equipment_cost : ℝ
  contingency : ℝ
  total_cost : ℝ
  cost_range_low : ℝ
  cost_range_high : ℝ
  repair_time_days : ℤ
  regional_multiplier : ℝ
  damage_multiplier : ℝ

/-- The sum of the eight component costs that make up `subtotal` (the ones
the accounting-identity claim lists; labor and material are a split of the
construction cost and are not part of the subtotal). -/
def CostBreakdown.componentSum (b : CostBreakdown) : ℝ :=
  b.structural_cost + b.non_structural_cost + b.content_cost + b.demolition_cost +
    b.professional_fees + b.permit_costs + b.emergency_response_cost + b.equipment_cost

noncomputable section

/-- `_get_severity_category(severity_score)` (identical in both engines). -/
def severity_category (s : ℝ) : String :=
  if s ≤ 0.25 then "minimal"
  else if s ≤ 0.5 then "moderate"
  else if s ≤ 0.75 then "severe"
  else "destructive"

/-- `self.repair_time_factors` (identical in both engines). -/
def repair_time_factors (c : String) : ℕ :=
  if c = "minimal" then 7
  else if c = "moderate" then 30
  else if c = "severe" then 90
  else 180

/-- The severity-tier cost-cap policy (`enhanced_cost_estimation.py` lines
157-179, `volume_based_cost_estimation.py` lines 243-265): clamp the total to
the tier ceiling and recompute the contingency as `ceiling - subtotal`,
floored at zero. Returns the `(total_cost, contingency)` pair. -/
def apply_severity_cap (sev subtotal contingency total : ℝ) : ℝ × ℝ :=
  if sev ≤ 0.25 ∨ sev ≤ 0.10 then
    if 500000 < total then (500000, max (500000 - subtotal) 0) else (total, contingency)
  else if sev ≤ 0.5 then
    if 2000000 < total then (2000000, max (2000000 - subtotal) 0) else (total, contingency)
  else (total, contingency)

/-- The AI-analysis refinement (`enhanced_cost_estimation.py` lines 191-196,
`volume_based_cost_estimation.py` lines 284-289), applied to the
already-capped total after the cost ranges were computed. `ai` is
`ai_analysis['damage_percentage']` when present and float-convertible. -/
def ai_refine (ai : Option ℝ) (damage_ratio total : ℝ) : ℝ :=
  match ai with
  | some p => total * (1 + (p / 100 - damage_ratio) * 0.3)
  | none => total

/-- The damage-type multiplier lifted to `ℝ` (the engines use it as a float
throughout). -/
def dm_val (dts : List String) : ℝ := ((calculate_damage_multiplier dts : ℚ) : ℝ)

/-- `uncertainty_factor = (1.0 - confidence_score) * 0.4` (line 145 resp.
line 231). -/
def uncertainty_val (conf : ℝ) : ℝ := (1 - conf) * 0.4

end

end DASPER

namespace DASPER.EnhancedCost

/-! ## `enhanced_cost_estimation.py` — `EnhancedRegionalCostEstimator` -/

noncomputable section

/-- `self.base_costs` (PKR per sqm), with the unknown-type fallback to
`'residential'` (line 85) folded in. -/
def base_costs (bt : String) : BaseCostTable :=
  if bt = "commercial" then ⟨⟨8000, 24000⟩, ⟨4000, 12000⟩, ⟨2000, 6000⟩⟩
  else if bt = "industrial" then ⟨⟨6000, 18000⟩, ⟨3000, 9000⟩, ⟨1500, 4500⟩⟩
  else ⟨⟨5000, 15000⟩, ⟨2500, 7500⟩, ⟨1000, 3000⟩⟩

/-- `_calculate_component_cost` (lines 251-271). -/
def component_cost (severity damage_ratio area : ℝ) (cr : CostRange) : ℝ :=
  let severity_factor := severity ^ (1.5 : ℝ)
  let damage_factor := damage_ratio ^ (1.3 : ℝ)
  let cost_factor := (severity_factor + damage_factor) / 2
  ((cr.min : ℝ) + ((cr.max : ℝ) - (cr.min : ℝ)) * cost_factor) * area

/-- `_calculate_regional_multiplier` (lines 273-296): weighted
construction/materials/labor average, times inflation, times
`1 + volatility * 0.5`; `1.0` for a missing or non-dict profile. -/
def regional_multiplier : Option RegionalProfile → ℝ
  | none => 1
  | some r =>
      (r.construction * 0.3 + r.materials * 0.5 + r.labor * 0.2) * r.inflation_factor *
        (1 + r.market_volatility * 0.5)

/-- The structural component cost before the regional and damage-type
multipliers (line 89). -/
def structural_base (sev dmg area : ℝ) (bt : String) : ℝ :=
  component_cost sev dmg area (base_costs bt).structural

/-- The non-structural component cost before multipliers, with the dampened
severity/damage inputs (line 94). -/
def non_structural_base (sev dmg area : ℝ) (bt : String) : ℝ :=
  component_cost (sev * 0.8) (dmg * 0.7) area (base_costs bt).nonStructural

/-- The content component cost before multipliers, with the dampened
severity/damage inputs (line 99). -/
def content_base (sev dmg area : ℝ) (bt : String) : ℝ :=
  component_cost (sev * 0.6) (dmg * 0.5) area (base_costs bt).content

/-- The `structural_cost` local after both multipliers (lines 89-116). -/
def structural_cost_val (sev dmg area : ℝ) (bt : String) (rd : Option RegionalProfile)
    (dts : List String) : ℝ :=
  structural_base sev dmg area bt * regional_multiplier rd * dm_val dts

/-- The `non_structural_cost` local after both multipliers (the damage-type
multiplier enters at 80% strength). -/
def non_structural_cost_val (sev dmg area : ℝ) (bt : String) (rd : Option RegionalProfile)
    (dts : List String) : ℝ :=
  non_structural_base sev dmg area bt * regional_multiplier rd * (dm_val dts * 0.8)

/-- The `content_cost` local after both multipliers (the damage-type
multiplier enters at 60% strength). -/
def content_cost_val (sev dmg area : ℝ) (bt : String) (rd : Option RegionalProfile)
    (dts : List String) : ℝ :=
  content_base sev dmg area bt * regional_multiplier rd * (dm_val dts * 0.6)

/-- `demolition_cost` (lines 119-121). -/
def demolition_val (sev area : ℝ) (rd : Option RegionalProfile) : ℝ :=
  if 0.75 < sev then area * 50 * regional_multiplier rd else 0

/-- `base_repair_cost` (line 124). -/
def base_repair_val (sev dmg area : ℝ) (bt : String) (rd : Option RegionalProfile)
    (dts : List String) : ℝ :=
  structural_cost_val sev dmg area bt rd dts + non_structural_cost_val sev dmg area bt rd dts +
    content_cost_val sev dmg area bt rd dts

/-- `emergency_cost` (lines 131-133). -/
def emergency_val (sev dmg area : ℝ) (bt : String) (rd : Option RegionalProfile)
    (dts : List String) : ℝ :=
  if 0.5 < sev then base_repair_val sev dmg area bt rd dts * 0.1 else 0

/-- `total_construction_cost` (line 137). -/
def construction_val (sev dmg area : ℝ) (bt : String) (rd : Option RegionalProfile)
    (dts : List String) : ℝ :=
  structural_cost_val sev dmg area bt rd dts + non_structural_cost_val sev dmg area bt rd dts

/-- `subtotal` (lines 148-150). -/
def subtotal_val (sev dmg area : ℝ) (bt : String) (rd : Option RegionalProfile)
    (dts : List String) : ℝ :=
  structural_cost_val sev dmg area bt rd dts + non_structural_cost_val sev dmg area bt rd dts +
    content_cost_val sev dmg area bt rd dts + demolition_val sev area rd +
    base_repair_val sev dmg area bt rd dts * 0.15 + base_repair_val sev dmg area bt rd dts * 0.05 +
    emergency_val sev dmg area bt rd dts + construction_val sev dmg area bt rd dts * 0.1

/-- `contingency` before the cap (line 153). -/
def contingency0_val (sev dmg area : ℝ) (bt : String) (rd : Option RegionalProfile)
    (dts : List String) (conf : ℝ) : ℝ :=
  subtotal_val sev dmg area bt rd dts * (0.1 + uncertainty_val conf)

/-- `total_cost` before the cap (line 155). -/
def total0_val (sev dmg area : ℝ) (bt : String) (rd : Option RegionalProfile)
    (dts : List String) (conf : ℝ) : ℝ :=
  subtotal_val sev dmg area bt rd dts + contingency0_val sev dmg area bt rd dts conf

/-- `calculate_repair_cost` (lines 71-220), success path over typed inputs.
`ai` is `ai_analysis['damage_percentage']` when the dict is present with that
key and the value converts (the inner `try/except` swallows conversion
failures). -/
def calculate_repair_cost (sev dmg area : ℝ) (bt : String)
    (rd : Option RegionalProfile) (dts : List String) (conf : ℝ) (ai : Option ℝ) :
    CostBreakdown :=
  let capped := apply_severity_cap sev (subtotal_val sev dmg area bt rd dts)
    (contingency0_val sev dmg area bt rd dts conf) (total0_val sev dmg area bt rd dts conf)
  { structural_cost := structural_cost_val sev dmg area bt rd dts
    non_structural_cost := non_structural_cost_val sev dmg area bt rd dts
    content_cost := content_cost_val sev dmg area bt rd dts
    demolition_cost := demolition_val sev area rd
    professional_fees := base_repair_val sev dmg area bt rd dts * 0.15
    permit_costs := base_repair_val sev dmg area bt rd dts * 0.05
    emergency_response_cost := emergency_val sev dmg area bt rd dts
    labor_cost := construction_val sev dmg area bt rd dts * 0.4
    material_cost := construction_val sev dmg area bt rd dts * (1 - 0.4)
    equipment_cost := construction_val sev dmg area bt rd dts * 0.1
    contingency := capped.2
    total_cost := ai_refine ai dmg capped.1
    cost_range_low := capped.1 * (1 - uncertainty_val conf)
    cost_range_high := capped.1 * (1 + uncertainty_val conf)
    repair_time_days :=
      ⌊(repair_time_factors (severity_category sev) : ℝ) * (1 + dm_val dts * 0.2)⌋
    regional_multiplier := regional_multiplier rd
    damage_multiplier := dm_val dts }

/-- The fallback estimation built by the `except` handler (lines 222-249):
`fallback_cost = area * 500 * severity` with fixed proportional splits. -/
def fallback_breakdown (area sev : ℝ) : CostBreakdown :=
  let fc := area * 500 * sev
  { structural_cost := fc * 0.5
    non_structural_cost := fc * 0.3
    content_cost := fc * 0.1
    demolition_cost := 0
    professional_fees := fc * 0.15
    permit_costs := fc * 0.05
    emergency_response_cost := fc * 0.1
    labor_cost := fc * 0.4
    material_cost := fc * 0.6
    equipment_cost := fc * 0.1
    contingency := fc * 0.2
    total_cost := fc * 1.4
    cost_range_low := fc * 1.2
    cost_range_high := fc * 1.6
    repair_time_days := 60
    regional_multiplier := 1
    damage_multiplier := 1 }

/-- The result dictionary together with the error-policy fields
(`fallback_used`, `error`) that only the fallback dictionary carries. -/
structure PyResult where
  breakdown : CostBreakdown
  fallback_used : Bool
  error : Option String

/-- The profile reads of `_calculate_regional_multiplier` over dynamic
dictionary values: each `.get(key, default)` result goes through `float()`,
which can raise on a malformed entry. A missing or non-dict profile short
circuits to no profile (multiplier `1.0`). -/
def regional_profile_py : Option (List (String × PyVal)) → Except String (Option RegionalProfile)
  | Option.none => .ok Option.none
  | some d => do
      let c ← pyGetFloat d "construction" 1
      let m ← pyGetFloat d "materials" 1
      let l ← pyGetFloat d "labor" 1
      let inf ← pyGetFloat d "inflation_factor" 1
      let vol ← pyGetFloat d "market_volatility" 0
      pure (some ⟨(c : ℝ), (m : ℝ), (l : ℝ), (inf : ℝ), (vol : ℝ)⟩)

/-- `calculate_repair_cost` including the Python dynamic typing and the
`try/except` error policy (lines 77-249): the body converts the four scalar
inputs and the regional profile, any of which can raise; on any body
exception the `except` handler rebuilds the fallback from
`float(building_area_sqm) * 500 * float(severity_score)` — conversions that
can themselves raise, in which case the new exception propagates out of
`calculate_repair_cost` (only `damage_ratio` is guarded with a
`'damage_ratio' in locals()` check). -/
def calculate_repair_cost_py (sevV dmgV areaV confV : PyVal) (bt : String)
    (rdV : Option (List (String × PyVal))) (dts : List String) (aiV : Option PyVal) :
    Except String PyResult :=
  let body : Except String CostBreakdown := do
    let sev ← pyFloat sevV
    let dmg ← pyFloat dmgV
    let area ← pyFloat areaV
    let conf ← pyFloat confV
    let rd ← regional_profile_py rdV
    let ai : Option ℝ :=
      match aiV with
      | some v =>
          match pyFloat v with
          | .ok p => some (p : ℝ)
          | .error _ => Option.none
      | Option.none => Option.none
    pure (calculate_repair_cost (sev : ℝ) (dmg : ℝ) (area : ℝ) bt rd dts (conf : ℝ) ai)
  match body with
  | .ok b => .ok ⟨b, false, Option.none⟩
  | .error e =>
      match pyFloat areaV with
      | .error e2 => .error e2
      | .ok a =>
          match pyFloat sevV with
          | .error e2 => .error e2
          | .ok s => .ok ⟨fallback_breakdown (a : ℝ) (s : ℝ), true, some e⟩

end

end DASPER.EnhancedCost

namespace DASPER.VolumeCost

/-! ## `volume_based_cost_estimation.py` — `VolumeBasedCostEstimator` -/

/-- The `regional_data` dict consumed by the volume estimator's
`_calculate_regional_multiplier` (its `construction` read is dead: only
materials/labor/inflation/volatility and the name-derived factor are used). -/
structure RegionalData where
  region_name : String
  city : String
  construction : ℝ
  materials : ℝ
  labor : ℝ
  inflation_factor : ℝ
  market_volatility : ℝ

/-- The Gemini `regional_costs` input: the `cost_breakdown` entries the
component mapping can read (missing keys fall back to the source default
`45000`) and the `regional_multiplier` (default `1.0`). -/
structure RegionalCosts where
  structural_materials : Option ℝ
  non_structural_materials : Option ℝ
  equipment : Option ℝ
  regional_multiplier : ℝ

/-- Domain hypothesis on the volume estimator's `regional_data` dict:
non-negative market factors. -/
def RegionalData.Nonneg (rd : RegionalData) : Prop :=
  0 ≤ rd.materials ∧ 0 ≤ rd.labor ∧ 0 ≤ rd.inflation_factor ∧ 0 ≤ rd.market_volatility

/-- Non-negativity of an optional `regional_data` dict. -/
def rdNonneg : Option RegionalData → Prop
  | Option.none => True
  | some rd => rd.Nonneg

/-- Domain hypothesis on the Gemini regional costs: non-negative unit costs
and multiplier. -/
def RegionalCosts.Nonneg (rc : RegionalCosts) : Prop :=
  (∀ x, rc.structural_materials = some x → 0 ≤ x) ∧
    (∀ x, rc.non_structural_materials = some x → 0 ≤ x) ∧
    (∀ x, rc.equipment = some x → 0 ≤ x) ∧ 0 ≤ rc.regional_multiplier

/-- Non-negativity of optional Gemini regional costs. -/
def rcNonneg : Option RegionalCosts → Prop
  | Option.none => True
  | some rc => rc.Nonneg

/-- The result dictionary of the volume engine: the shared numeric fields
plus `calculation_method`. -/
structure VolBreakdown extends CostBreakdown where
  calculation_method : String

/-- `self.regional_cost_factors`, in insertion order (the lookup loop takes
the first key matching the city and then breaks). -/
def regional_cost_factors : List (String × ℚ) :=
  [("Karachi", 1.2), ("Lahore", 1.15), ("Islamabad", 1.25), ("Rawalpindi", 1.1),
   ("Faisalabad", 1.05), ("Multan", 1), ("Peshawar", 1), ("Quetta", 0.95),
   ("Rural", 0.8), ("SEZ", 1.1), ("default", 1)]

/-- The major-city keywords of `_calculate_regional_multiplier` line 454. -/
def major_cities : List String :=
  ["karachi", "lahore", "islamabad", "rawalpindi", "faisalabad", "multan", "peshawar",
   "quetta"]

noncomputable section

/-- `self.base_volume_costs` (PKR per cubic meter), unknown types resolved to
`'residential'` (line 121). -/
def base_volume_costs (bt : String) : BaseCostTable :=
  if bt = "commercial" then ⟨⟨1800, 4500⟩, ⟨900, 2250⟩, ⟨450, 1200⟩⟩
  else if bt = "industrial" then ⟨⟨1500, 3600⟩, ⟨750, 1800⟩, ⟨400, 1000⟩⟩
  else ⟨⟨1200, 3000⟩, ⟨600, 1500⟩, ⟨300, 800⟩⟩

/-- `self.base_area_costs` (PKR per sqm). -/
def base_area_costs (bt : String) : BaseCostTable :=
  if bt = "commercial" then ⟨⟨12000, 30000⟩, ⟨6000, 15000⟩, ⟨3000, 8000⟩⟩
  else if bt = "industrial" then ⟨⟨10000, 24000⟩, ⟨5000, 12000⟩, ⟨2500, 6000⟩⟩
  else ⟨⟨8000, 20000⟩, ⟨4000, 10000⟩, ⟨2000, 5000⟩⟩

/-- `_calculate_volume_component_cost` (lines 397-417) and
`_calculate_area_component_cost` (lines 419-439) share this body verbatim:
interpolated unit cost times the quantity (volume resp. area). -/
def component_cost (severity damage_ratio quantity : ℝ) (cr : CostRange) : ℝ :=
  let severity_factor := severity ^ (1.5 : ℝ)
  let damage_factor := damage_ratio ^ (1.3 : ℝ)
  let cost_factor := (severity_factor + damage_factor) / 2
  ((cr.min : ℝ) + ((cr.max : ℝ) - (cr.min : ℝ)) * cost_factor) * quantity

/-- The name-derived regional factor of `_calculate_regional_multiplier`
(lines 446-464), over the already-lowercased region name and city: major-city
substring lookup in `regional_cost_factors` (first match wins, factor stays
`1.0` if the loop matches nothing), then the rural/SEZ keywords, else the
default; `1.0` when both strings are empty (falsy). -/
def regional_factor (rn city : String) : ℚ :=
  if rn = "" ∧ city = "" then 1
  else if major_cities.any (fun c => containsSub c.data city.data) then
    match regional_cost_factors.find?
        (fun kv => containsSub kv.1.toLower.data city.data) with
    | some kv => kv.2
    | Option.none => 1
  else if containsSub "rural".data rn.data || containsSub "rural".data city.data then
    (0.8 : ℚ)
  else if containsSub "sez".data rn.data || containsSub "sez".data city.data then
    (1.1 : ℚ)
  else 1

/-- `_calculate_regional_multiplier` (lines 441-485): name-derived regional
factor, times `materials * 0.6 + labor * 0.4`, times inflation, times
`1 + volatility * 0.2`. -/
def regional_multiplier : Option RegionalData → ℝ
  | Option.none => 1
  | some rd =>
      ((regional_factor rd.region_name.toLower rd.city.toLower : ℚ) : ℝ) *
        (rd.materials * 0.6 + rd.labor * 0.4) * rd.inflation_factor *
        (1 + rd.market_volatility * 0.2)

/-- Lines 130-134: the volume derived as `area * height` when
`building_height_m` is truthy and positive. -/
def derived_volume (area : ℝ) : Option ℝ → Option ℝ
  | some h => if 0 < h then some (area * h) else Option.none
  | Option.none => Option.none

/-- Lines 124-136: the building volume the engine computes with — the
supplied `building_volume_cubic_m` when truthy and positive, otherwise the
height-derived volume, otherwise none (area basis). -/
def building_volume (area : ℝ) (volume height : Option ℝ) : Option ℝ :=
  match volume with
  | some v => if 0 < v then some v else derived_volume area height
  | Option.none => derived_volume area height

/-- `_calculate_regional_component_cost` (lines 359-395): mapped
`cost_breakdown` entry (default 45000) times quantity and damage ratio,
scaled by the severity multiplier `0.1 + severity * 0.9` and the Gemini
regional multiplier. The inner `try/except` is reachable only through
`volume / area` raising `ZeroDivisionError` (`area == 0` with positive
volume), in which case the `{'min': 10000, 'max': 50000}` volume fallback
runs with `volume or area`. -/
def base_cost_lookup (rc : RegionalCosts) (component : String) : ℝ :=
  if component = "structural" then rc.structural_materials.getD 45000
  else if component = "non_structural" then rc.non_structural_materials.getD 45000
  else if component = "content" then rc.equipment.getD 45000
  else rc.structural_materials.getD 45000

/-- The area-based branch of `_calculate_regional_component_cost` (line 382),
followed by the severity and regional multipliers (lines 385-386). -/
def regional_area_case (sev dmg area : ℝ) (rc : RegionalCosts) (component : String) : ℝ :=
  base_cost_lookup rc component * area * dmg * (0.1 + sev * 0.9) * rc.regional_multiplier

/-- `_calculate_regional_component_cost` (lines 376-389), given the resolved
base cost. -/
def regional_component_cost (sev dmg area : ℝ) :
    Option ℝ → RegionalCosts → String → ℝ
  | some v, rc, component =>
      if 0 < v then
        if area = 0 then component_cost sev dmg v ⟨10000, 50000⟩
        else base_cost_lookup rc component * area * (v / area) * dmg * (0.1 + sev * 0.9) *
          rc.regional_multiplier
      else regional_area_case sev dmg area rc component
  | Option.none, rc, component => regional_area_case sev dmg area rc component

/-- Lines 139-185: the structural component cost before the regional and
damage-type multipliers — the Gemini regional formula when `regional_costs`
is supplied, otherwise the per-cubic-meter table when a volume is in use and
the per-square-meter table otherwise. -/
def structural_pre (sev dmg area : ℝ) (bt : String) (bv : Option ℝ)
    (rc : Option RegionalCosts) : ℝ :=
  match rc with
  | some g => regional_component_cost sev dmg area bv g "structural"
  | Option.none =>
      match bv with
      | some v => component_cost sev dmg v (base_volume_costs bt).structural
      | Option.none => component_cost sev dmg area (base_area_costs bt).structural

/-- The non-structural component cost before multipliers (dampened
severity/damage on the table paths, undampened on the Gemini path, as in the
source). -/
def non_structural_pre (sev dmg area : ℝ) (bt : String) (bv : Option ℝ)
    (rc : Option RegionalCosts) : ℝ :=
  match rc with
  | some g => regional_component_cost sev dmg area bv g "non_structural"
  | Option.none =>
      match bv with
      | some v => component_cost (sev * 0.8) (dmg * 0.7) v (base_volume_costs bt).nonStructural
      | Option.none =>
          component_cost (sev * 0.8) (dmg * 0.7) area (base_area_costs bt).nonStructural

/-- The content component cost before multipliers. -/
def content_pre (sev dmg area : ℝ) (bt : String) (bv : Option ℝ)
    (rc : Option RegionalCosts) : ℝ :=
  match rc with
  | some g => regional_component_cost sev dmg area bv g "content"
  | Option.none =>
      match bv with
      | some v => component_cost (sev * 0.6) (dmg * 0.5) v (base_volume_costs bt).content
      | Option.none => component_cost (sev * 0.6) (dmg * 0.5) area (base_area_costs bt).content

/-- The `structural_cost` local after both multipliers (lines 190-199), as a
function of the already-resolved building volume `bv`. -/
def structural_cost_val (sev dmg area : ℝ) (bt : String) (bv : Option ℝ)
    (rc : Option RegionalCosts) (rd : Option RegionalData) (dts : List String) : ℝ :=
  structural_pre sev dmg area bt bv rc * regional_multiplier rd * dm_val dts

/-- The `non_structural_cost` local after both multipliers (damage-type
multiplier at 80% strength). -/
def non_structural_cost_val (sev dmg area : ℝ) (bt : String) (bv : Option ℝ)
    (rc : Option RegionalCosts) (rd : Option RegionalData) (dts : List String) : ℝ :=
  non_structural_pre sev dmg area bt bv rc * regional_multiplier rd * (dm_val dts * 0.8)

/-- The `content_cost` local after both multipliers (damage-type multiplier
at 60% strength). -/
def content_cost_val (sev dmg area : ℝ) (bt : String) (bv : Option ℝ)
    (rc : Option RegionalCosts) (rd : Option RegionalData) (dts : List String) : ℝ :=
  content_pre sev dmg area bt bv rc * regional_multiplier rd * (dm_val dts * 0.6)

/-- `demolition_cost` (lines 202-207): per cubic meter when a volume is in
use, per square meter otherwise. -/
def demolition_val (sev area : ℝ) (bv : Option ℝ) (rd : Option RegionalData) : ℝ :=
  if 0.75 < sev then
    match bv with
    | some v => v * 8 * regional_multiplier rd
    | Option.none => area * 50 * regional_multiplier rd
  else 0

/-- `base_repair_cost` (line 210). -/
def base_repair_val (sev dmg area : ℝ) (bt : String) (bv : Option ℝ)
    (rc : Option RegionalCosts) (rd : Option RegionalData) (dts : List String) : ℝ :=
  structural_cost_val sev dmg area bt bv rc rd dts +
    non_structural_cost_val sev dmg area bt bv rc rd dts +
    content_cost_val sev dmg area bt bv rc rd dts

/-- `emergency_cost` (lines 217-219). -/
def emergency_val (sev dmg area : ℝ) (bt : String) (bv : Option ℝ)
    (rc : Option RegionalCosts) (rd : Option RegionalData) (dts : List String) : ℝ :=
  if 0.5 < sev then base_repair_val sev dmg area bt bv rc rd dts * 0.1 else 0

/-- `total_construction_cost` (line 223). -/
def construction_val (sev dmg area : ℝ) (bt : String) (bv : Option ℝ)
    (rc : Option RegionalCosts) (rd : Option RegionalData) (dts : List String) : ℝ :=
  structural_cost_val sev dmg area bt bv rc rd dts +
    non_structural_cost_val sev dmg area bt bv rc rd dts

/-- `subtotal` (lines 234-236). -/
def subtotal_val (sev dmg area : ℝ) (bt : String) (bv : Option ℝ)
    (rc : Option RegionalCosts) (rd : Option RegionalData) (dts : List String) : ℝ :=
  structural_cost_val sev dmg area bt bv rc rd dts +
    non_structural_cost_val sev dmg area bt bv rc rd dts +
    content_cost_val sev dmg area bt bv rc rd dts + demolition_val sev area bv rd +
    base_repair_val sev dmg area bt bv rc rd dts * 0.15 +
    base_repair_val sev dmg area bt bv rc rd dts * 0.05 +
    emergency_val sev dmg area bt bv rc rd dts +
    construction_val sev dmg area bt bv rc rd dts * 0.1

/-- `contingency` before the cap (line 239). -/
def contingency0_val (sev dmg area : ℝ) (bt : String) (bv : Option ℝ)
    (rc : Option RegionalCosts) (rd : Option RegionalData) (dts : List String)
    (conf : ℝ) : ℝ :=
  subtotal_val sev dmg area bt bv rc rd dts * (0.1 + uncertainty_val conf)

/-- `total_cost` before the cap (line 241). -/
def total0_val (sev dmg area : ℝ) (bt : String) (bv : Option ℝ)
    (rc : Option RegionalCosts) (rd : Option RegionalData) (dts : List String)
    (conf : ℝ) : ℝ :=
  subtotal_val sev dmg area bt bv rc rd dts +
    contingency0_val sev dmg area bt bv rc rd dts conf

/-- `calculate_repair_cost` (lines 93-322), success path over typed inputs:
volume-vs-area unit-basis selection, optional Gemini regional costs,
regional and damage multipliers, additional costs, contingency, the severity
cap, ranges, repair time and the AI refinement. -/
def calculate_repair_cost (sev dmg area : ℝ) (bt : String)
    (rd : Option RegionalData) (dts : List String) (conf : ℝ) (ai : Option ℝ)
    (height volume : Option ℝ) (rc : Option RegionalCosts)
    (repair_estimate : Option ℤ) : VolBreakdown :=
  let bv := building_volume area volume height
  let capped := apply_severity_cap sev (subtotal_val sev dmg area bt bv rc rd dts)
    (contingency0_val sev dmg area bt bv rc rd dts conf)
    (total0_val sev dmg area bt bv rc rd dts conf)
  { structural_cost := structural_cost_val sev dmg area bt bv rc rd dts
    non_structural_cost := non_structural_cost_val sev dmg area bt bv rc rd dts
    content_cost := content_cost_val sev dmg area bt bv rc rd dts
    demolition_cost := demolition_val sev area bv rd
    professional_fees := base_repair_val sev dmg area bt bv rc rd dts * 0.15
    permit_costs := base_repair_val sev dmg area bt bv rc rd dts * 0.05
    emergency_response_cost := emergency_val sev dmg area bt bv rc rd dts
    labor_cost := construction_val sev dmg area bt bv rc rd dts * 0.4
    material_cost := construction_val sev dmg area bt bv rc rd dts * (1 - 0.4)
    equipment_cost := construction_val sev dmg area bt bv rc rd dts * 0.1
    contingency := capped.2
    total_cost := ai_refine ai dmg capped.1
    cost_range_low := capped.1 * (1 - uncertainty_val conf)
    cost_range_high := capped.1 * (1 + uncertainty_val conf)
    repair_time_days :=
      match repair_estimate with
      | some d =>
          if d ≠ 0 then d
          else ⌊(repair_time_factors (severity_category sev) : ℝ) * (1 + dm_val dts * 0.2)⌋
      | Option.none =>
          ⌊(repair_time_factors (severity_category sev) : ℝ) * (1 + dm_val dts * 0.2)⌋
    regional_multiplier := regional_multiplier rd
    damage_multiplier := dm_val dts
    calculation_method :=
      match bv with
      | some _ => "volume_based"
      | Option.none => "area_based" }

end

end DASPER.VolumeCost

namespace DASPER.Manager

/-! ## `model_manager.py` — `ModelManager`

The bundle objects themselves are opaque; the state tracks whether the
pipeline is loaded, the counters and the `last_used` stamp. Time is an
abstract tick (`ℕ`). Every state transition of the source runs under the
re-entrant `_model_lock`, so concurrent operations are modelled as their
critical sections executing atomically in some sequential order. -/

/-- The mutable manager state (`__init__`, lines 39-60). -/
structure ManagerState where
  loaded : Bool
  loadCount : ℕ
  unloadCount : ℕ
  inferenceCount : ℕ
  lastUsed : Option ℕ
deriving DecidableEq

/-- The state right after `__init__`. -/
def initial_state : ManagerState := ⟨false, 0, 0, 0, Option.none⟩

/-- `_unload_models` (lines 169-200): no-op when already unloaded, otherwise
drop the bundle and bump the unload counter. -/
def unload_models (s : ManagerState) : ManagerState :=
  if s.loaded then { s with loaded := false, unloadCount := s.unloadCount + 1 } else s

/-- `_load_models` (lines 105-167): no-op when already loaded; otherwise load
the bundle — `fileExists` abstracts whether the model file check succeeds; on
failure the partially loaded state is unloaded and the exception propagates —
bump the load counter and stamp `last_used`. -/
def load_models (fileExists : Bool) (t : ℕ) (s : ManagerState) : Except String ManagerState :=
  if s.loaded then .ok s
  else if fileExists then
    .ok { s with loaded := true, loadCount := s.loadCount + 1, lastUsed := some t }
  else .error "Model file not found"

/-- One `get_pipeline` checkout (lines 202-235), entry and exit of the
context manager under the lock: lazy `_load_models`, stamp `last_used` and
bump the inference counter. -/
def checkout (fileExists : Bool) (t : ℕ) (s : ManagerState) : Except String ManagerState :=
  match load_models fileExists t s with
  | .error e => .error e
  | .ok s1 => .ok { s1 with lastUsed := some t, inferenceCount := s1.inferenceCount + 1 }

/-- `force_unload` (lines 292-296). -/
def force_unload (s : ManagerState) : ManagerState := unload_models s

/-- The mutable fields of the `get_status` snapshot (lines 267-290). -/
structure Status where
  models_loaded : Bool
  load_count : ℕ
  unload_count : ℕ
  inference_count : ℕ
  last_used : Option ℕ
deriving DecidableEq

/-- `get_status`. -/
def get_status (s : ManagerState) : Status :=
  ⟨s.loaded, s.loadCount, s.unloadCount, s.inferenceCount, s.lastUsed⟩

/-- N checkouts serialised through `_model_lock`: every state transition of
`get_pipeline` happens with the lock held, so any concurrent execution of N
checkouts equals running their (identical) critical sections in some
sequential order — i.e. this fold over the sequence of observed ticks. -/
def checkout_seq (fileExists : Bool) (ts : List ℕ) (s : ManagerState) :
    Except String ManagerState :=
  match ts with
  | [] => .ok s
  | t :: rest =>
      match checkout fileExists t s with
      | .error e => .error e
      | .ok s1 => checkout_seq fileExists rest s1

end DASPER.Manager

namespace DASPER

/-! ## Helper lemmas: the damage-multiplier folds -/

/-- The inner fold of `_calculate_damage_multiplier` never decreases the
accumulator. -/
lemma le_inner_fold (dt : String) (tbl : List (String × ℚ)) :
    ∀ m : ℚ, m ≤ tbl.foldl (fun m2 kv => if keyIn kv.1 dt then max m2 kv.2 else m2) m := by
  induction tbl with
  | nil => intro m; simp
  | cons kv rest ih =>
      intro m
      simp only [List.foldl_cons]
      refine le_trans ?_ (ih _)
      split
      · exact le_max_left _ _
      · exact le_rfl

/-- The inner fold stays below any bound dominating the accumulator and all
matching table values. -/
lemma inner_fold_le (dt : String) (c : ℚ) (tbl : List (String × ℚ)) :
    ∀ m : ℚ, m ≤ c → (∀ kv ∈ tbl, keyIn kv.1 dt = true → kv.2 ≤ c) →
      tbl.foldl (fun m2 kv => if keyIn kv.1 dt then max m2 kv.2 else m2) m ≤ c := by
  induction tbl with
  | nil => intro m hm _; simpa using hm
  | cons kv rest ih =>
      intro m hm hv
      simp only [List.foldl_cons]
      refine ih _ ?_ ?_
      · by_cases h : keyIn kv.1 dt = true
        · rw [if_pos h]
          exact max_le hm (hv kv (by simp) h)
        · rw [if_neg h]
          exact hm
      · intro kv2 h2 hk2
        exact hv kv2 (by simp [h2]) hk2

/-- A matching table value is dominated by the inner fold. -/
lemma matched_le_inner_fold (dt : String) (tbl : List (String × ℚ)) :
    ∀ m : ℚ, ∀ kv ∈ tbl, keyIn kv.1 dt = true →
      kv.2 ≤ tbl.foldl (fun m2 kv => if keyIn kv.1 dt then max m2 kv.2 else m2) m := by
  induction tbl with
  | nil => intro m kv h; simp at h
  | cons kv0 rest ih =>
      intro m kv hmem hk
      rcases List.mem_cons.mp hmem with h | h
      · subst h
        simp only [List.foldl_cons, hk, if_true]
        exact le_trans (le_max_right _ _) (le_inner_fold dt rest _)
      · simp only [List.foldl_cons]
        exact ih _ kv h hk

/-- The outer fold of `_calculate_damage_multiplier` never decreases the
accumulator. -/
lemma le_outer_fold (dts : List String) : ∀ m : ℚ, m ≤ dts.foldl damageStep m := by
  induction dts with
  | nil => intro m; simp
  | cons dt rest ih =>
      intro m
      simp only [List.foldl_cons]
      exact le_trans (le_inner_fold dt damage_multipliers m) (ih _)

/-- The outer fold stays below any bound dominating the accumulator and all
matching table values. -/
lemma outer_fold_le (dts : List String) (c : ℚ) :
    ∀ m : ℚ, m ≤ c →
      (∀ kv ∈ damage_multipliers, ∀ dt ∈ dts, keyIn kv.1 dt = true → kv.2 ≤ c) →
      dts.foldl damageStep m ≤ c := by
  induction dts with
  | nil => intro m hm _; simpa using hm
  | cons dt rest ih =>
      intro m hm hv
      simp only [List.foldl_cons]
      refine ih _ ?_ ?_
      · exact inner_fold_le dt c damage_multipliers m hm
          (fun kv hkv hk => hv kv hkv dt (by simp) hk)
      · intro kv hkv dt2 h2 hk2
        exact hv kv hkv dt2 (by simp [h2]) hk2

/-- A table value matched by some listed damage type is dominated by the
outer fold. -/
lemma matched_le_outer_fold (dts : List String) :
    ∀ m : ℚ, ∀ kv ∈ damage_multipliers, ∀ dt ∈ dts, keyIn kv.1 dt = true →
      kv.2 ≤ dts.foldl damageStep m := by
  induction dts with
  | nil => intro m kv _ dt h; simp at h
  | cons dt0 rest ih =>
      intro m kv hkv dt hdt hk
      rcases List.mem_cons.mp hdt with h | h
      · subst h
        simp only [List.foldl_cons]
        exact le_trans (matched_le_inner_fold dt damage_multipliers m kv hkv hk)
          (le_outer_fold rest _)
      · simp only [List.foldl_cons]
        exact ih _ kv hkv dt h hk

/-- The base is dominated by a `foldr max`. -/
lemma base_le_foldr_max (l : List ℚ) (b : ℚ) : b ≤ l.foldr max b := by
  induction l with
  | nil => simp
  | cons a rest ih => exact le_trans ih (le_max_right _ _)

/-- Every element is dominated by a `foldr max`. -/
lemma mem_le_foldr_max (l : List ℚ) (b : ℚ) : ∀ a ∈ l, a ≤ l.foldr max b := by
  induction l with
  | nil => intro a h; simp at h
  | cons a0 rest ih =>
      intro a ha
      rcases List.mem_cons.mp ha with h | h
      · subst h; exact le_max_left _ _
      · exact le_trans (ih a h) (le_max_right _ _)

/-- A `foldr max` is below any bound dominating the base and all elements. -/
lemma foldr_max_le (l : List ℚ) (b c : ℚ) (hb : b ≤ c) (h : ∀ a ∈ l, a ≤ c) :
    l.foldr max b ≤ c := by
  induction l with
  | nil => simpa using hb
  | cons a rest ih =>
      simp only [List.foldr_cons]
      exact max_le (h a (by simp)) (ih (fun x hx => h x (by simp [hx])))

/-- The nested fold of `_calculate_damage_multiplier` computes exactly the
claimed maximum over matching table entries (with floor 1). -/
lemma damage_multiplier_eq_spec (dts : List String) :
    calculate_damage_multiplier dts = damage_multiplier_spec dts := by
  by_cases hdts : dts.isEmpty
  · rw [List.isEmpty_iff] at hdts
    subst hdts
    simp [calculate_damage_multiplier, damage_multiplier_spec]
  · unfold calculate_damage_multiplier
    rw [if_neg hdts]
    apply le_antisymm
    · refine outer_fold_le dts _ 1 ?_ ?_
      · exact base_le_foldr_max _ _
      · intro kv hkv dt hdt hk
        refine mem_le_foldr_max _ _ kv.2 ?_
        refine List.mem_map.mpr ⟨kv, ?_, rfl⟩
        refine List.mem_filter.mpr ⟨hkv, ?_⟩
        exact List.any_eq_true.mpr ⟨dt, hdt, hk⟩
    · refine foldr_max_le _ _ _ (le_outer_fold dts 1) ?_
      intro a ha
      rcases List.mem_map.mp ha with ⟨kv, hkv, rfl⟩
      rcases List.mem_filter.mp hkv with ⟨hmem, hany⟩
      rcases List.any_eq_true.mp hany with ⟨dt, hdt, hk⟩
      exact matched_le_outer_fold dts 1 kv hmem dt hdt hk

/-- Floor of the damage multiplier. -/
lemma one_le_damage_multiplier (dts : List String) :
    1 ≤ calculate_damage_multiplier dts := by
  unfold calculate_damage_multiplier
  split
  · exact le_rfl
  · exact le_outer_fold dts 1

/-- Ceiling of the damage multiplier: no table entry exceeds `collapse`'s
`1.4`. -/
lemma damage_multiplier_le (dts : List String) :
    calculate_damage_multiplier dts ≤ 1.4 := by
  unfold calculate_damage_multiplier
  split
  · norm_num
  · refine outer_fold_le dts _ 1 (by norm_num) ?_
    intro kv hkv dt _ _
    fin_cases hkv <;> norm_num

end DASPER

namespace DASPER

/-! ## Helper lemmas: the severity-tier cap -/

/-- Below the minimal-severity threshold the capped total is at most the
minimal-damage ceiling. -/
lemma cap_fst_le_minimal (sev st c0 t : ℝ) (h : sev ≤ 0.25) :
    (apply_severity_cap sev st c0 t).1 ≤ 500000 := by
  unfold apply_severity_cap
  rw [if_pos (Or.inl h)]
  split_ifs with h2
  · norm_num
  · simpa using le_of_not_lt h2

/-- In the moderate severity band the capped total is at most the
moderate-damage ceiling. -/
lemma cap_fst_le_moderate (sev st c0 t : ℝ) (h1 : 0.25 < sev) (h2 : sev ≤ 0.5) :
    (apply_severity_cap sev st c0 t).1 ≤ 2000000 := by
  have h0 : ¬(sev ≤ 0.25 ∨ sev ≤ 0.10) := by
    push_neg
    constructor <;> linarith
  unfold apply_severity_cap
  rw [if_neg h0, if_pos h2]
  split_ifs with h3
  · norm_num
  · simpa using le_of_not_lt h3

/-- The accounting identity after the cap: either the returned total equals
`subtotal + contingency`, or the cap forced the contingency to its zero floor
and the total (the ceiling) sits strictly below the subtotal. -/
lemma cap_cases (sev st c0 : ℝ) :
    (apply_severity_cap sev st c0 (st + c0)).1 = st + (apply_severity_cap sev st c0 (st + c0)).2 ∨
      ((apply_severity_cap sev st c0 (st + c0)).2 = 0 ∧
        (apply_severity_cap sev st c0 (st + c0)).1 < st) := by
  unfold apply_severity_cap
  split_ifs with h1 h2 h3 h4
  · rcases le_or_lt st 500000 with h | h
    · left
      simp only [max_eq_left (by linarith : (0:ℝ) ≤ 500000 - st)]
      ring
    · right
      refine ⟨?_, by simpa using h⟩
      simp only [max_eq_right (by linarith : (500000:ℝ) - st ≤ 0)]
  · left
    simp
  · rcases le_or_lt st 2000000 with h | h
    · left
      simp only [max_eq_left (by linarith : (0:ℝ) ≤ 2000000 - st)]
      ring
    · right
      refine ⟨?_, by simpa using h⟩
      simp only [max_eq_right (by linarith : (2000000:ℝ) - st ≤ 0)]
  · left
    simp
  · left
    simp

/-- The capped total is non-negative when subtotal and pre-cap contingency
are. -/
lemma cap_fst_nonneg (sev st c0 : ℝ) (hst : 0 ≤ st) (hc0 : 0 ≤ c0) :
    0 ≤ (apply_severity_cap sev st c0 (st + c0)).1 := by
  unfold apply_severity_cap
  split_ifs <;> simp <;> linarith

/-- `ai_refine` is the identity when no AI analysis is usable. -/
lemma ai_refine_none (dmg t : ℝ) : ai_refine Option.none dmg t = t := rfl

end DASPER

namespace DASPER.EnhancedCost

/-! ## Field lemmas for the enhanced engine (definitional) -/

lemma total_cost_def (sev dmg area : ℝ) (bt : String) (rd : Option RegionalProfile)
    (dts : List String) (conf : ℝ) (ai : Option ℝ) :
    (calculate_repair_cost sev dmg area bt rd dts conf ai).total_cost =
      ai_refine ai dmg (apply_severity_cap sev (subtotal_val sev dmg area bt rd dts)
        (contingency0_val sev dmg area bt rd dts conf)
        (total0_val sev dmg area bt rd dts conf)).1 := rfl

lemma contingency_def (sev dmg area : ℝ) (bt : String) (rd : Option RegionalProfile)
    (dts : List String) (conf : ℝ) (ai : Option ℝ) :
    (calculate_repair_cost sev dmg area bt rd dts conf ai).contingency =
      (apply_severity_cap sev (subtotal_val sev dmg area bt rd dts)
        (contingency0_val sev dmg area bt rd dts conf)
        (total0_val sev dmg area bt rd dts conf)).2 := rfl

lemma range_low_def (sev dmg area : ℝ) (bt : String) (rd : Option RegionalProfile)
    (dts : List String) (conf : ℝ) (ai : Option ℝ) :
    (calculate_repair_cost sev dmg area bt rd dts conf ai).cost_range_low =
      (apply_severity_cap sev (subtotal_val sev dmg area bt rd dts)
        (contingency0_val sev dmg area bt rd dts conf)
        (total0_val sev dmg area bt rd dts conf)).1 * (1 - uncertainty_val conf) := rfl

lemma range_high_def (sev dmg area : ℝ) (bt : String) (rd : Option RegionalProfile)
    (dts : List String) (conf : ℝ) (ai : Option ℝ) :
    (calculate_repair_cost sev dmg area bt rd dts conf ai).cost_range_high =
      (apply_severity_cap sev (subtotal_val sev dmg area bt rd dts)
        (contingency0_val sev dmg area bt rd dts conf)
        (total0_val sev dmg area bt rd dts conf)).1 * (1 + uncertainty_val conf) := rfl

lemma componentSum_def (sev dmg area : ℝ) (bt : String) (rd : Option RegionalProfile)
    (dts : List String) (conf : ℝ) (ai : Option ℝ) :
    (calculate_repair_cost sev dmg area bt rd dts conf ai).componentSum =
      subtotal_val sev dmg area bt rd dts := rfl

end DASPER.EnhancedCost

namespace DASPER.VolumeCost

/-! ## Field lemmas for the volume engine (definitional) -/

lemma vol_total_cost_def (sev dmg area : ℝ) (bt : String) (rd : Option RegionalData)
    (dts : List String) (conf : ℝ) (ai : Option ℝ) (height volume : Option ℝ)
    (rc : Option RegionalCosts) (re : Option ℤ) :
    (calculate_repair_cost sev dmg area bt rd dts conf ai height volume rc re).total_cost =
      ai_refine ai dmg (apply_severity_cap sev
        (subtotal_val sev dmg area bt (building_volume area volume height) rc rd dts)
        (contingency0_val sev dmg area bt (building_volume area volume height) rc rd dts conf)
        (total0_val sev dmg area bt (building_volume area volume height) rc rd dts conf)).1 :=
  rfl

lemma vol_contingency_def (sev dmg area : ℝ) (bt : String) (rd : Option RegionalData)
    (dts : List String) (conf : ℝ) (ai : Option ℝ) (height volume : Option ℝ)
    (rc : Option RegionalCosts) (re : Option ℤ) :
    (calculate_repair_cost sev dmg area bt rd dts conf ai height volume rc re).contingency =
      (apply_severity_cap sev
        (subtotal_val sev dmg area bt (building_volume area volume height) rc rd dts)
        (contingency0_val sev dmg area bt (building_volume area volume height) rc rd dts conf)
        (total0_val sev dmg area bt (building_volume area volume height) rc rd dts conf)).2 :=
  rfl

lemma vol_range_low_def (sev dmg area : ℝ) (bt : String) (rd : Option RegionalData)
    (dts : List String) (conf : ℝ) (ai : Option ℝ) (height volume : Option ℝ)
    (rc : Option RegionalCosts) (re : Option ℤ) :
    (calculate_repair_cost sev dmg area bt rd dts conf ai height volume rc re).cost_range_low =
      (apply_severity_cap sev
        (subtotal_val sev dmg area bt (building_volume area volume height) rc rd dts)
        (contingency0_val sev dmg area bt (building_volume area volume height) rc rd dts conf)
        (total0_val sev dmg area bt (building_volume area volume height) rc rd dts conf)).1 *
        (1 - uncertainty_val conf) := rfl

lemma vol_range_high_def (sev dmg area : ℝ) (bt : String) (rd : Option RegionalData)
    (dts : List String) (conf : ℝ) (ai : Option ℝ) (height volume : Option ℝ)
    (rc : Option RegionalCosts) (re : Option ℤ) :
    (calculate_repair_cost sev dmg area bt rd dts conf ai height volume rc re).cost_range_high =
      (apply_severity_cap sev
        (subtotal_val sev dmg area bt (building_volume area volume height) rc rd dts)
        (contingency0_val sev dmg area bt (building_volume area volume height) rc rd dts conf)
        (total0_val sev dmg area bt (building_volume area volume height) rc rd dts conf)).1 *
        (1 + uncertainty_val conf) := rfl

lemma vol_componentSum_def (sev dmg area : ℝ) (bt : String) (rd : Option RegionalData)
    (dts : List String) (conf : ℝ) (ai : Option ℝ) (height volume : Option ℝ)
    (rc : Option RegionalCosts) (re : Option ℤ) :
    (calculate_repair_cost sev dmg area bt rd dts conf ai height volume rc
      re).toCostBreakdown.componentSum =
      subtotal_val sev dmg area bt (building_volume area volume height) rc rd dts := rfl

end DASPER.VolumeCost

namespace DASPER

/-- C1 (corrected): when no `ai_analysis` refinement is applied, both engines
honour the severity-tier ceilings — any call with `severity_score <= 0.25`
returns a total of at most 500000 PKR and any call with
`0.25 < severity_score <= 0.5` returns at most 2000000 PKR, for all damage
ratios, areas, building types, regional profiles, damage types, confidence
scores, heights, volumes, Gemini regional costs and repair-time estimates.
(The unrestricted claim fails: the AI refinement multiplies the total after
the cap, see the counterexample.) -/
theorem severity_tier_cap_amended (sev dmg area : ℝ) (bt : String)
    (rdE : Option RegionalProfile) (rdV : Option VolumeCost.RegionalData)
    (dts : List String) (conf : ℝ) (height volume : Option ℝ)
    (rc : Option VolumeCost.RegionalCosts) (re : Option ℤ) :
    (sev ≤ 0.25 →
      (EnhancedCost.calculate_repair_cost sev dmg area bt rdE dts conf
          Option.none).total_cost ≤ 500000 ∧
      (VolumeCost.calculate_repair_cost sev dmg area bt rdV dts conf Option.none
          height volume rc re).total_cost ≤ 500000) ∧
    (0.25 < sev → sev ≤ 0.5 →
      (EnhancedCost.calculate_repair_cost sev dmg area bt rdE dts conf
          Option.none).total_cost ≤ 2000000 ∧
      (VolumeCost.calculate_repair_cost sev dmg area bt rdV dts conf Option.none
          height volume rc re).total_cost ≤ 2000000) := by
  constructor
  · intro h
    constructor
    · rw [EnhancedCost.total_cost_def, ai_refine_none]
      exact cap_fst_le_minimal _ _ _ _ h
    · rw [VolumeCost.vol_total_cost_def, ai_refine_none]
      exact cap_fst_le_minimal _ _ _ _ h
  · intro h1 h2
    constructor
    · rw [EnhancedCost.total_cost_def, ai_refine_none]
      exact cap_fst_le_moderate _ _ _ _ h1 h2
    · rw [VolumeCost.vol_total_cost_def, ai_refine_none]
      exact cap_fst_le_moderate _ _ _ _ h1 h2

/-- Witness for the amended C1 theorem at a concrete minimal-severity and a
concrete moderate-severity call. -/
theorem severity_tier_cap_amended_witness :
    ((0.1 : ℝ) ≤ 0.25 ∧
      (EnhancedCost.calculate_repair_cost 0.1 0.2 100 "residential" Option.none [] 1
          Option.none).total_cost ≤ 500000) ∧
    ((0.25 : ℝ) < 0.4 ∧ (0.4 : ℝ) ≤ 0.5 ∧
      (VolumeCost.calculate_repair_cost 0.4 0.4 100 "residential" Option.none [] 1
          Option.none Option.none Option.none Option.none Option.none).total_cost ≤ 2000000) := by
  refine ⟨⟨by norm_num, ?_⟩, by norm_num, by norm_num, ?_⟩
  · exact ((severity_tier_cap_amended 0.1 0.2 100 "residential" Option.none Option.none []
      1 Option.none Option.none Option.none Option.none).1 (by norm_num)).1
  · exact ((severity_tier_cap_amended 0.4 0.4 100 "residential" Option.none Option.none []
      1 Option.none Option.none Option.none Option.none).2 (by norm_num) (by norm_num)).2

end DASPER

namespace DASPER

/-! ## Helper lemmas: non-negativity of the cost components -/

lemma one_le_dm_val (dts : List String) : 1 ≤ dm_val dts := by
  unfold dm_val
  exact_mod_cast one_le_damage_multiplier dts

lemma dm_val_nonneg (dts : List String) : 0 ≤ dm_val dts :=
  le_trans zero_le_one (one_le_dm_val dts)

lemma uncertainty_val_nonneg (conf : ℝ) (h : conf ≤ 1) : 0 ≤ uncertainty_val conf := by
  unfold uncertainty_val
  linarith

end DASPER

namespace DASPER.EnhancedCost

lemma base_costs_wf (bt : String) :
    (0 ≤ (base_costs bt).structural.min ∧
        (base_costs bt).structural.min ≤ (base_costs bt).structural.max) ∧
      (0 ≤ (base_costs bt).nonStructural.min ∧
        (base_costs bt).nonStructural.min ≤ (base_costs bt).nonStructural.max) ∧
      (0 ≤ (base_costs bt).content.min ∧
        (base_costs bt).content.min ≤ (base_costs bt).content.max) := by
  unfold base_costs
  split_ifs <;> norm_num

lemma component_cost_nonneg (sev dmg q : ℝ) (cr : CostRange)
    (hs : 0 ≤ sev) (hd : 0 ≤ dmg) (hq : 0 ≤ q) (h1 : 0 ≤ cr.min) (h2 : cr.min ≤ cr.max) :
    0 ≤ component_cost sev dmg q cr := by
  simp only [component_cost]
  have hsf : (0:ℝ) ≤ sev ^ (1.5:ℝ) := Real.rpow_nonneg hs _
  have hdf : (0:ℝ) ≤ dmg ^ (1.3:ℝ) := Real.rpow_nonneg hd _
  have hcf : (0:ℝ) ≤ (sev ^ (1.5:ℝ) + dmg ^ (1.3:ℝ)) / 2 := by linarith
  have hmin : (0:ℝ) ≤ (cr.min : ℝ) := by exact_mod_cast h1
  have hmax : (cr.min : ℝ) ≤ (cr.max : ℝ) := by exact_mod_cast h2
  refine mul_nonneg ?_ hq
  have := mul_nonneg (sub_nonneg.mpr hmax) hcf
  linarith

lemma regional_multiplier_nonneg :
    ∀ (rd : Option RegionalProfile), profileNonneg rd → 0 ≤ regional_multiplier rd
  | Option.none, _ => by norm_num [regional_multiplier]
  | some r, h => by
      obtain ⟨hc, hm, hl, hi, hv⟩ := h
      simp only [regional_multiplier]
      have h1 : (0:ℝ) ≤ r.construction * 0.3 + r.materials * 0.5 + r.labor * 0.2 := by linarith
      have h2 : (0:ℝ) ≤ 1 + r.market_volatility * 0.5 := by linarith
      exact mul_nonneg (mul_nonneg h1 hi) h2

lemma structural_cost_val_nonneg (sev dmg area : ℝ) (bt : String)
    (rd : Option RegionalProfile) (dts : List String)
    (hs : 0 ≤ sev) (hd : 0 ≤ dmg) (ha : 0 ≤ area) (hrd : profileNonneg rd) :
    0 ≤ structural_cost_val sev dmg area bt rd dts := by
  unfold structural_cost_val structural_base
  exact mul_nonneg (mul_nonneg
    (component_cost_nonneg _ _ _ _ hs hd ha (base_costs_wf bt).1.1 (base_costs_wf bt).1.2)
    (regional_multiplier_nonneg rd hrd)) (dm_val_nonneg dts)

lemma non_structural_cost_val_nonneg (sev dmg area : ℝ) (bt : String)
    (rd : Option RegionalProfile) (dts : List String)
    (hs : 0 ≤ sev) (hd : 0 ≤ dmg) (ha : 0 ≤ area) (hrd : profileNonneg rd) :
    0 ≤ non_structural_cost_val sev dmg area bt rd dts := by
  unfold non_structural_cost_val non_structural_base
  refine mul_nonneg (mul_nonneg
    (component_cost_nonneg _ _ _ _ (by linarith) (by linarith) ha
      (base_costs_wf bt).2.1.1 (base_costs_wf bt).2.1.2)
    (regional_multiplier_nonneg rd hrd)) ?_
  have := dm_val_nonneg dts
  linarith

lemma content_cost_val_nonneg (sev dmg area : ℝ) (bt : String)
    (rd : Option RegionalProfile) (dts : List String)
    (hs : 0 ≤ sev) (hd : 0 ≤ dmg) (ha : 0 ≤ area) (hrd : profileNonneg rd) :
    0 ≤ content_cost_val sev dmg area bt rd dts := by
  unfold content_cost_val content_base
  refine mul_nonneg (mul_nonneg
    (component_cost_nonneg _ _ _ _ (by linarith) (by linarith) ha
      (base_costs_wf bt).2.2.1 (base_costs_wf bt).2.2.2)
    (regional_multiplier_nonneg rd hrd)) ?_
  have := dm_val_nonneg dts
  linarith

lemma subtotal_val_nonneg (sev dmg area : ℝ) (bt : String)
    (rd : Option RegionalProfile) (dts : List String)
    (hs : 0 ≤ sev) (hd : 0 ≤ dmg) (ha : 0 ≤ area) (hrd : profileNonneg rd) :
    0 ≤ subtotal_val sev dmg area bt rd dts := by
  have h1 := structural_cost_val_nonneg sev dmg area bt rd dts hs hd ha hrd
  have h2 := non_structural_cost_val_nonneg sev dmg area bt rd dts hs hd ha hrd
  have h3 := content_cost_val_nonneg sev dmg area bt rd dts hs hd ha hrd
  have hdem : 0 ≤ demolition_val sev area rd := by
    unfold demolition_val
    split
    · exact mul_nonneg (mul_nonneg ha (by norm_num)) (regional_multiplier_nonneg rd hrd)
    · exact le_refl 0
  have hbase : 0 ≤ base_repair_val sev dmg area bt rd dts := by
    unfold base_repair_val
    linarith
  have hemer : 0 ≤ emergency_val sev dmg area bt rd dts := by
    unfold emergency_val
    split
    · linarith
    · exact le_refl 0
  have hcons : 0 ≤ construction_val sev dmg area bt rd dts := by
    unfold construction_val
    linarith
  unfold subtotal_val
  linarith

lemma contingency0_val_nonneg (sev dmg area : ℝ) (bt : String)
    (rd : Option RegionalProfile) (dts : List String) (conf : ℝ)
    (hs : 0 ≤ sev) (hd : 0 ≤ dmg) (ha : 0 ≤ area) (hrd : profileNonneg rd) (hc : conf ≤ 1) :
    0 ≤ contingency0_val sev dmg area bt rd dts conf := by
  unfold contingency0_val
  refine mul_nonneg (subtotal_val_nonneg sev dmg area bt rd dts hs hd ha hrd) ?_
  have := uncertainty_val_nonneg conf hc
  linarith

end DASPER.EnhancedCost

namespace DASPER.VolumeCost

lemma base_volume_costs_wf (bt : String) :
    (0 ≤ (base_volume_costs bt).structural.min ∧
        (base_volume_costs bt).structural.min ≤ (base_volume_costs bt).structural.max) ∧
      (0 ≤ (base_volume_costs bt).nonStructural.min ∧
        (base_volume_costs bt).nonStructural.min ≤ (base_volume_costs bt).nonStructural.max) ∧
      (0 ≤ (base_volume_costs bt).content.min ∧
        (base_volume_costs bt).content.min ≤ (base_volume_costs bt).content.max) := by
  unfold base_volume_costs
  split_ifs <;> norm_num

lemma base_area_costs_wf (bt : String) :
    (0 ≤ (base_area_costs bt).structural.min ∧
        (base_area_costs bt).structural.min ≤ (base_area_costs bt).structural.max) ∧
      (0 ≤ (base_area_costs bt).nonStructural.min ∧
        (base_area_costs bt).nonStructural.min ≤ (base_area_costs bt).nonStructural.max) ∧
      (0 ≤ (base_area_costs bt).content.min ∧
        (base_area_costs bt).content.min ≤ (base_area_costs bt).content.max) := by
  unfold base_area_costs
  split_ifs <;> norm_num

lemma vol_component_cost_nonneg (sev dmg q : ℝ) (cr : CostRange)
    (hs : 0 ≤ sev) (hd : 0 ≤ dmg) (hq : 0 ≤ q) (h1 : 0 ≤ cr.min) (h2 : cr.min ≤ cr.max) :
    0 ≤ component_cost sev dmg q cr := by
  simp only [component_cost]
  have hsf : (0:ℝ) ≤ sev ^ (1.5:ℝ) := Real.rpow_nonneg hs _
  have hdf : (0:ℝ) ≤ dmg ^ (1.3:ℝ) := Real.rpow_nonneg hd _
  have hcf : (0:ℝ) ≤ (sev ^ (1.5:ℝ) + dmg ^ (1.3:ℝ)) / 2 := by linarith
  have hmin : (0:ℝ) ≤ (cr.min : ℝ) := by exact_mod_cast h1
  have hmax : (cr.min : ℝ) ≤ (cr.max : ℝ) := by exact_mod_cast h2
  refine mul_nonneg ?_ hq
  have := mul_nonneg (sub_nonneg.mpr hmax) hcf
  linarith

lemma regional_factor_nonneg (rn city : String) : 0 ≤ regional_factor rn city := by
  unfold regional_factor
  split_ifs
  · norm_num
  · cases hfind : regional_cost_factors.find?
        (fun kv => containsSub kv.1.toLower.data city.data) with
    | none => simp [hfind]
    | some kv =>
        simp only [hfind]
        have hmem := List.mem_of_find?_eq_some hfind
        fin_cases hmem <;> norm_num
  · norm_num
  · norm_num
  · norm_num

lemma vol_regional_multiplier_nonneg :
    ∀ (rd : Option RegionalData), rdNonneg rd → 0 ≤ regional_multiplier rd
  | Option.none, _ => by norm_num [regional_multiplier]
  | some rd, h => by
      obtain ⟨hm, hl, hi, hv⟩ := h
      simp only [regional_multiplier]
      have hf : (0:ℝ) ≤ ((regional_factor rd.region_name.toLower rd.city.toLower : ℚ) : ℝ) := by
        exact_mod_cast regional_factor_nonneg _ _
      have h1 : (0:ℝ) ≤ rd.materials * 0.6 + rd.labor * 0.4 := by linarith
      have h2 : (0:ℝ) ≤ 1 + rd.market_volatility * 0.2 := by linarith
      exact mul_nonneg (mul_nonneg (mul_nonneg hf h1) hi) h2

lemma derived_volume_nonneg (area : ℝ) (height : Option ℝ) (ha : 0 ≤ area) :
    ∀ v, derived_volume area height = some v → 0 ≤ v := by
  intro v hv
  cases height with
  | some hh =>
      simp only [derived_volume] at hv
      by_cases hh0 : 0 < hh
      · rw [if_pos hh0] at hv
        cases hv
        exact mul_nonneg ha hh0.le
      · rw [if_neg hh0] at hv
        exact absurd hv (by simp)
  | none => simp [derived_volume] at hv

lemma building_volume_nonneg (area : ℝ) (volume height : Option ℝ) (ha : 0 ≤ area) :
    ∀ v, building_volume area volume height = some v → 0 ≤ v := by
  intro v hv
  cases volume with
  | some v0 =>
      simp only [building_volume] at hv
      by_cases h0 : 0 < v0
      · rw [if_pos h0] at hv
        cases hv
        exact le_of_lt h0
      · rw [if_neg h0] at hv
        exact derived_volume_nonneg area height ha v hv
  | none =>
      simp only [building_volume] at hv
      exact derived_volume_nonneg area height ha v hv

lemma getD_nonneg (o : Option ℝ) (h : ∀ x, o = some x → 0 ≤ x) (d : ℝ) (hd : 0 ≤ d) :
    0 ≤ o.getD d := by
  cases o with
  | none => simpa using hd
  | some x => simpa using h x rfl

lemma base_cost_lookup_nonneg (g : RegionalCosts) (component : String) (hg : g.Nonneg) :
    0 ≤ base_cost_lookup g component := by
  obtain ⟨h1, h2, h3, _⟩ := hg
  unfold base_cost_lookup
  split_ifs
  · exact getD_nonneg _ h1 _ (by norm_num)
  · exact getD_nonneg _ h2 _ (by norm_num)
  · exact getD_nonneg _ h3 _ (by norm_num)
  · exact getD_nonneg _ h1 _ (by norm_num)

lemma regional_component_cost_nonneg (sev dmg area : ℝ) (bv : Option ℝ) (g : RegionalCosts)
    (component : String) (hs : 0 ≤ sev) (hd : 0 ≤ dmg) (ha : 0 ≤ area)
    (hbv : ∀ v, bv = some v → 0 ≤ v) (hg : g.Nonneg) :
    0 ≤ regional_component_cost sev dmg area bv g component := by
  have hbase := base_cost_lookup_nonneg g component hg
  have hmult := hg.2.2.2
  have hsm : (0:ℝ) ≤ 0.1 + sev * 0.9 := by linarith
  have harea_case : 0 ≤ regional_area_case sev dmg area g component := by
    unfold regional_area_case
    exact mul_nonneg (mul_nonneg (mul_nonneg (mul_nonneg hbase ha) hd) hsm) hmult
  cases bv with
  | none => simpa only [regional_component_cost] using harea_case
  | some v =>
      have hv := hbv v rfl
      simp only [regional_component_cost]
      by_cases hv0 : 0 < v
      · rw [if_pos hv0]
        by_cases harea : area = 0
        · rw [if_pos harea]
          exact vol_component_cost_nonneg _ _ _ _ hs hd hv (by norm_num) (by norm_num)
        · rw [if_neg harea]
          exact mul_nonneg (mul_nonneg (mul_nonneg (mul_nonneg
            (mul_nonneg hbase ha) (div_nonneg hv ha)) hd) hsm) hmult
      · rw [if_neg hv0]
        exact harea_case

lemma structural_pre_nonneg (sev dmg area : ℝ) (bt : String) (bv : Option ℝ)
    (rc : Option RegionalCosts) (hs : 0 ≤ sev) (hd : 0 ≤ dmg) (ha : 0 ≤ area)
    (hbv : ∀ v, bv = some v → 0 ≤ v) (hrc : rcNonneg rc) :
    0 ≤ structural_pre sev dmg area bt bv rc := by
  unfold structural_pre
  cases rc with
  | some g => exact regional_component_cost_nonneg sev dmg area bv g _ hs hd ha hbv hrc
  | none =>
      cases bv with
      | some v =>
          exact vol_component_cost_nonneg _ _ _ _ hs hd (hbv v rfl)
            (base_volume_costs_wf bt).1.1 (base_volume_costs_wf bt).1.2
      | none =>
          exact vol_component_cost_nonneg _ _ _ _ hs hd ha
            (base_area_costs_wf bt).1.1 (base_area_costs_wf bt).1.2

lemma non_structural_pre_nonneg (sev dmg area : ℝ) (bt : String) (bv : Option ℝ)
    (rc : Option RegionalCosts) (hs : 0 ≤ sev) (hd : 0 ≤ dmg) (ha : 0 ≤ area)
    (hbv : ∀ v, bv = some v → 0 ≤ v) (hrc : rcNonneg rc) :
    0 ≤ non_structural_pre sev dmg area bt bv rc := by
  unfold non_structural_pre
  cases rc with
  | some g => exact regional_component_cost_nonneg sev dmg area bv g _ hs hd ha hbv hrc
  | none =>
      cases bv with
      | some v =>
          exact vol_component_cost_nonneg _ _ _ _ (by linarith) (by linarith) (hbv v rfl)
            (base_volume_costs_wf bt).2.1.1 (base_volume_costs_wf bt).2.1.2
      | none =>
          exact vol_component_cost_nonneg _ _ _ _ (by linarith) (by linarith) ha
            (base_area_costs_wf bt).2.1.1 (base_area_costs_wf bt).2.1.2

lemma content_pre_nonneg (sev dmg area : ℝ) (bt : String) (bv : Option ℝ)
    (rc : Option RegionalCosts) (hs : 0 ≤ sev) (hd : 0 ≤ dmg) (ha : 0 ≤ area)
    (hbv : ∀ v, bv = some v → 0 ≤ v) (hrc : rcNonneg rc) :
    0 ≤ content_pre sev dmg area bt bv rc := by
  unfold content_pre
  cases rc with
  | some g => exact regional_component_cost_nonneg sev dmg area bv g _ hs hd ha hbv hrc
  | none =>
      cases bv with
      | some v =>
          exact vol_component_cost_nonneg _ _ _ _ (by linarith) (by linarith) (hbv v rfl)
            (base_volume_costs_wf bt).2.2.1 (base_volume_costs_wf bt).2.2.2
      | none =>
          exact vol_component_cost_nonneg _ _ _ _ (by linarith) (by linarith) ha
            (base_area_costs_wf bt).2.2.1 (base_area_costs_wf bt).2.2.2

lemma vol_subtotal_val_nonneg (sev dmg area : ℝ) (bt : String) (bv : Option ℝ)
    (rc : Option RegionalCosts) (rd : Option RegionalData) (dts : List String)
    (hs : 0 ≤ sev) (hd : 0 ≤ dmg) (ha : 0 ≤ area)
    (hbv : ∀ v, bv = some v → 0 ≤ v) (hrc : rcNonneg rc) (hrd : rdNonneg rd) :
    0 ≤ subtotal_val sev dmg area bt bv rc rd dts := by
  have hrm := vol_regional_multiplier_nonneg rd hrd
  have hdm := dm_val_nonneg dts
  have h1 : 0 ≤ structural_cost_val sev dmg area bt bv rc rd dts := by
    unfold structural_cost_val
    exact mul_nonneg (mul_nonneg (structural_pre_nonneg sev dmg area bt bv rc hs hd ha hbv hrc)
      hrm) hdm
  have h2 : 0 ≤ non_structural_cost_val sev dmg area bt bv rc rd dts := by
    unfold non_structural_cost_val
    refine mul_nonneg (mul_nonneg
      (non_structural_pre_nonneg sev dmg area bt bv rc hs hd ha hbv hrc) hrm) (by linarith)
  have h3 : 0 ≤ content_cost_val sev dmg area bt bv rc rd dts := by
    unfold content_cost_val
    refine mul_nonneg (mul_nonneg
      (content_pre_nonneg sev dmg area bt bv rc hs hd ha hbv hrc) hrm) (by linarith)
  have hdem : 0 ≤ demolition_val sev area bv rd := by
    unfold demolition_val
    split
    · cases bv with
      | some v => exact mul_nonneg (mul_nonneg (hbv v rfl) (by norm_num)) hrm
      | none => exact mul_nonneg (mul_nonneg ha (by norm_num)) hrm
    · exact le_refl 0
  have hbase : 0 ≤ base_repair_val sev dmg area bt bv rc rd dts := by
    unfold base_repair_val
    linarith
  have hemer : 0 ≤ emergency_val sev dmg area bt bv rc rd dts := by
    unfold emergency_val
    split
    · linarith
    · exact le_refl 0
  have hcons : 0 ≤ construction_val sev dmg area bt bv rc rd dts := by
    unfold construction_val
    linarith
  unfold subtotal_val
  linarith

lemma vol_contingency0_val_nonneg (sev dmg area : ℝ) (bt : String) (bv : Option ℝ)
    (rc : Option RegionalCosts) (rd : Option RegionalData) (dts : List String) (conf : ℝ)
    (hs : 0 ≤ sev) (hd : 0 ≤ dmg) (ha : 0 ≤ area)
    (hbv : ∀ v, bv = some v → 0 ≤ v) (hrc : rcNonneg rc) (hrd : rdNonneg rd) (hc : conf ≤ 1) :
    0 ≤ contingency0_val sev dmg area bt bv rc rd dts conf := by
  unfold contingency0_val
  refine mul_nonneg (vol_subtotal_val_nonneg sev dmg area bt bv rc rd dts hs hd ha hbv hrc hrd) ?_
  have := uncertainty_val_nonneg conf hc
  linarith

end DASPER.VolumeCost

namespace DASPER

/-- C2 (corrected): for both engines, on domain-typical inputs (non-negative
severity, damage ratio and area, confidence at most 1, non-negative regional
factors) and with no `ai_analysis` refinement, either
`total_cost = componentSum + contingency` exactly, or the severity-tier cap
forced the recomputed contingency to its zero floor — the subtotal already
exceeded the ceiling — and then the returned total (the ceiling) sits
strictly below the component sum, so the claimed accounting identity fails
precisely in the zero-clamp case (and under an AI refinement, see the
counterexample); the range envelope `cost_range_low ≤ total_cost ≤
cost_range_high` does hold. -/
theorem breakdown_accounting_amended (sev dmg area : ℝ) (bt : String)
    (rdE : Option RegionalProfile) (rdV : Option VolumeCost.RegionalData)
    (dts : List String) (conf : ℝ) (height volume : Option ℝ)
    (rc : Option VolumeCost.RegionalCosts) (re : Option ℤ)
    (hs : 0 ≤ sev) (hd : 0 ≤ dmg) (ha : 0 ≤ area) (hc1 : conf ≤ 1)
    (hrdE : profileNonneg rdE) (hrdV : VolumeCost.rdNonneg rdV)
    (hrc : VolumeCost.rcNonneg rc) :
    (((EnhancedCost.calculate_repair_cost sev dmg area bt rdE dts conf
          Option.none).total_cost =
        (EnhancedCost.calculate_repair_cost sev dmg area bt rdE dts conf
          Option.none).componentSum +
        (EnhancedCost.calculate_repair_cost sev dmg area bt rdE dts conf
          Option.none).contingency ∨
      ((EnhancedCost.calculate_repair_cost sev dmg area bt rdE dts conf
          Option.none).contingency = 0 ∧
        (EnhancedCost.calculate_repair_cost sev dmg area bt rdE dts conf
          Option.none).total_cost <
        (EnhancedCost.calculate_repair_cost sev dmg area bt rdE dts conf
          Option.none).componentSum)) ∧
      (EnhancedCost.calculate_repair_cost sev dmg area bt rdE dts conf
          Option.none).cost_range_low ≤
        (EnhancedCost.calculate_repair_cost sev dmg area bt rdE dts conf
          Option.none).total_cost ∧
      (EnhancedCost.calculate_repair_cost sev dmg area bt rdE dts conf
          Option.none).total_cost ≤
        (EnhancedCost.calculate_repair_cost sev dmg area bt rdE dts conf
          Option.none).cost_range_high) ∧
    (((VolumeCost.calculate_repair_cost sev dmg area bt rdV dts conf Option.none
          height volume rc re).total_cost =
        (VolumeCost.calculate_repair_cost sev dmg area bt rdV dts conf Option.none
          height volume rc re).toCostBreakdown.componentSum +
        (VolumeCost.calculate_repair_cost sev dmg area bt rdV dts conf Option.none
          height volume rc re).contingency ∨
      ((VolumeCost.calculate_repair_cost sev dmg area bt rdV dts conf Option.none
          height volume rc re).contingency = 0 ∧
        (VolumeCost.calculate_repair_cost sev dmg area bt rdV dts conf Option.none
          height volume rc re).total_cost <
        (VolumeCost.calculate_repair_cost sev dmg area bt rdV dts conf Option.none
          height volume rc re).toCostBreakdown.componentSum)) ∧
      (VolumeCost.calculate_repair_cost sev dmg area bt rdV dts conf Option.none
          height volume rc re).cost_range_low ≤
        (VolumeCost.calculate_repair_cost sev dmg area bt rdV dts conf Option.none
          height volume rc re).total_cost ∧
      (VolumeCost.calculate_repair_cost sev dmg area bt rdV dts conf Option.none
          height volume rc re).total_cost ≤
        (VolumeCost.calculate_repair_cost sev dmg area bt rdV dts conf Option.none
          height volume rc re).cost_range_high) := by
  have hu := uncertainty_val_nonneg conf hc1
  constructor
  · have hst := EnhancedCost.subtotal_val_nonneg sev dmg area bt rdE dts hs hd ha hrdE
    have hc0 := EnhancedCost.contingency0_val_nonneg sev dmg area bt rdE dts conf
      hs hd ha hrdE hc1
    have ht : EnhancedCost.total0_val sev dmg area bt rdE dts conf =
        EnhancedCost.subtotal_val sev dmg area bt rdE dts +
          EnhancedCost.contingency0_val sev dmg area bt rdE dts conf := rfl
    have hcap := cap_fst_nonneg sev _ _ hst hc0
    refine ⟨?_, ?_, ?_⟩
    · rw [EnhancedCost.total_cost_def, ai_refine_none, EnhancedCost.contingency_def,
        EnhancedCost.componentSum_def, ht]
      exact cap_cases sev _ _
    · rw [EnhancedCost.range_low_def, EnhancedCost.total_cost_def, ai_refine_none, ht]
      exact mul_le_of_le_one_right hcap (by linarith)
    · rw [EnhancedCost.range_high_def, EnhancedCost.total_cost_def, ai_refine_none, ht]
      exact le_mul_of_one_le_right hcap (by linarith)
  · have hbv := VolumeCost.building_volume_nonneg area volume height ha
    have hst := VolumeCost.vol_subtotal_val_nonneg sev dmg area bt
      (VolumeCost.building_volume area volume height) rc rdV dts hs hd ha hbv hrc hrdV
    have hc0 := VolumeCost.vol_contingency0_val_nonneg sev dmg area bt
      (VolumeCost.building_volume area volume height) rc rdV dts conf hs hd ha hbv hrc hrdV hc1
    have ht : VolumeCost.total0_val sev dmg area bt
        (VolumeCost.building_volume area volume height) rc rdV dts conf =
        VolumeCost.subtotal_val sev dmg area bt
          (VolumeCost.building_volume area volume height) rc rdV dts +
          VolumeCost.contingency0_val sev dmg area bt
            (VolumeCost.building_volume area volume height) rc rdV dts conf := rfl
    have hcap := cap_fst_nonneg sev _ _ hst hc0
    refine ⟨?_, ?_, ?_⟩
    · rw [VolumeCost.vol_total_cost_def, ai_refine_none, VolumeCost.vol_contingency_def,
        VolumeCost.vol_componentSum_def, ht]
      exact cap_cases sev _ _
    · rw [VolumeCost.vol_range_low_def, VolumeCost.vol_total_cost_def, ai_refine_none, ht]
      exact mul_le_of_le_one_right hcap (by linarith)
    · rw [VolumeCost.vol_range_high_def, VolumeCost.vol_total_cost_def, ai_refine_none, ht]
      exact le_mul_of_one_le_right hcap (by linarith)

/-- Witness for the amended C2 theorem: the range envelope at a concrete
call of each engine. -/
theorem breakdown_accounting_amended_witness :
    (EnhancedCost.calculate_repair_cost 0.5 0.5 100 "residential" Option.none [] 1
        Option.none).cost_range_low ≤
      (EnhancedCost.calculate_repair_cost 0.5 0.5 100 "residential" Option.none [] 1
        Option.none).total_cost ∧
    (VolumeCost.calculate_repair_cost 0.5 0.5 100 "residential" Option.none [] 1
        Option.none Option.none Option.none Option.none Option.none).total_cost ≤
      (VolumeCost.calculate_repair_cost 0.5 0.5 100 "residential" Option.none [] 1
        Option.none Option.none Option.none Option.none Option.none).cost_range_high := by
  have h := breakdown_accounting_amended 0.5 0.5 100 "residential" Option.none Option.none
    [] 1 Option.none Option.none Option.none Option.none (by norm_num) (by norm_num)
    (by norm_num) (by norm_num) trivial trivial trivial
  exact ⟨h.1.2.1, h.2.2.2⟩

end DASPER

namespace DASPER

/-! ## Concrete evaluation of the enhanced engine

At `severity = 0, damage_ratio = 0, area = 100, residential, no profile, no
damage types, confidence 1` the exponents vanish (`0 ^ 1.5 = 0 ^ 1.3 = 0`)
and every quantity is rational: the component costs are the table minima
times the area, the subtotal is 982000 PKR and the pre-cap total 1080200 PKR,
so the minimal-severity cap fires and clamps the contingency at zero. -/

lemma dm_val_nil : dm_val [] = 1 := by
  simp [dm_val, calculate_damage_multiplier]

lemma enh_base_costs_res :
    EnhancedCost.base_costs "residential" = ⟨⟨5000, 15000⟩, ⟨2500, 7500⟩, ⟨1000, 3000⟩⟩ := by
  simp [EnhancedCost.base_costs]

lemma enh_structural_eval :
    EnhancedCost.structural_cost_val 0 0 100 "residential" Option.none [] = 500000 := by
  have h15 : (0:ℝ) ^ (1.5:ℝ) = 0 := Real.zero_rpow (by norm_num)
  have h13 : (0:ℝ) ^ (1.3:ℝ) = 0 := Real.zero_rpow (by norm_num)
  rw [EnhancedCost.structural_cost_val, EnhancedCost.structural_base, enh_base_costs_res,
    dm_val_nil]
  norm_num [EnhancedCost.component_cost, EnhancedCost.regional_multiplier, h15, h13]

lemma enh_non_structural_eval :
    EnhancedCost.non_structural_cost_val 0 0 100 "residential" Option.none [] = 200000 := by
  have h15 : (0:ℝ) ^ (1.5:ℝ) = 0 := Real.zero_rpow (by norm_num)
  have h13 : (0:ℝ) ^ (1.3:ℝ) = 0 := Real.zero_rpow (by norm_num)
  rw [EnhancedCost.non_structural_cost_val, EnhancedCost.non_structural_base,
    enh_base_costs_res, dm_val_nil]
  norm_num [EnhancedCost.component_cost, EnhancedCost.regional_multiplier, h15, h13]

lemma enh_content_eval :
    EnhancedCost.content_cost_val 0 0 100 "residential" Option.none [] = 60000 := by
  have h15 : (0:ℝ) ^ (1.5:ℝ) = 0 := Real.zero_rpow (by norm_num)
  have h13 : (0:ℝ) ^ (1.3:ℝ) = 0 := Real.zero_rpow (by norm_num)
  rw [EnhancedCost.content_cost_val, EnhancedCost.content_base, enh_base_costs_res,
    dm_val_nil]
  norm_num [EnhancedCost.component_cost, EnhancedCost.regional_multiplier, h15, h13]

lemma enh_subtotal_eval :
    EnhancedCost.subtotal_val 0 0 100 "residential" Option.none [] = 982000 := by
  unfold EnhancedCost.subtotal_val EnhancedCost.base_repair_val EnhancedCost.emergency_val
    EnhancedCost.construction_val EnhancedCost.demolition_val
  rw [enh_structural_eval, enh_non_structural_eval, enh_content_eval]
  norm_num

lemma enh_contingency0_eval :
    EnhancedCost.contingency0_val 0 0 100 "residential" Option.none [] 1 = 98200 := by
  unfold EnhancedCost.contingency0_val
  rw [enh_subtotal_eval]
  norm_num [uncertainty_val]

lemma enh_total0_eval :
    EnhancedCost.total0_val 0 0 100 "residential" Option.none [] 1 = 1080200 := by
  unfold EnhancedCost.total0_val
  rw [enh_subtotal_eval, enh_contingency0_eval]
  norm_num

lemma enh_cap_eval :
    apply_severity_cap 0 982000 98200 1080200 = (500000, 0) := by
  unfold apply_severity_cap
  rw [if_pos (Or.inl (by norm_num : (0:ℝ) ≤ 0.25)), if_pos (by norm_num : (500000:ℝ) < 1080200)]
  norm_num

/-- C1 (counterexample): at `severity = 0 ≤ 0.25` the minimal-damage cap
fires (pre-cap total 1080200 PKR), but supplying
`ai_analysis = {'damage_percentage': 100}` with `damage_ratio = 0` multiplies
the capped total by `1.3` after the cap, returning 650000 PKR — above the
claimed 500000 PKR ceiling. -/
theorem severity_tier_cap_counterexample :
    (0:ℝ) ≤ 0.25 ∧
      (EnhancedCost.calculate_repair_cost 0 0 100 "residential" Option.none [] 1
          (some 100)).total_cost = 650000 ∧
      ¬((EnhancedCost.calculate_repair_cost 0 0 100 "residential" Option.none [] 1
          (some 100)).total_cost ≤ 500000) := by
  have heval : (EnhancedCost.calculate_repair_cost 0 0 100 "residential" Option.none [] 1
      (some 100)).total_cost = 650000 := by
    rw [EnhancedCost.total_cost_def, enh_subtotal_eval, enh_contingency0_eval, enh_total0_eval,
      enh_cap_eval]
    norm_num [ai_refine]
  refine ⟨by norm_num, heval, ?_⟩
  rw [heval]
  norm_num

/-- C2 (counterexample): at `severity = 0, damage_ratio = 0, area = 100 m²,
residential, confidence 1`, no AI analysis, the subtotal is 982000 PKR, the
cap clamps the total to 500000 PKR and the recomputed contingency to its zero
floor, so the returned breakdown violates
`total_cost = componentSum + contingency` by 482000 PKR — far beyond any
floating-point tolerance. -/
theorem breakdown_accounting_counterexample :
    (EnhancedCost.calculate_repair_cost 0 0 100 "residential" Option.none [] 1
        Option.none).total_cost = 500000 ∧
      (EnhancedCost.calculate_repair_cost 0 0 100 "residential" Option.none [] 1
        Option.none).componentSum = 982000 ∧
      (EnhancedCost.calculate_repair_cost 0 0 100 "residential" Option.none [] 1
        Option.none).contingency = 0 ∧
      (EnhancedCost.calculate_repair_cost 0 0 100 "residential" Option.none [] 1
          Option.none).total_cost ≠
        (EnhancedCost.calculate_repair_cost 0 0 100 "residential" Option.none [] 1
          Option.none).componentSum +
        (EnhancedCost.calculate_repair_cost 0 0 100 "residential" Option.none [] 1
          Option.none).contingency := by
  have h1 : (EnhancedCost.calculate_repair_cost 0 0 100 "residential" Option.none [] 1
      Option.none).total_cost = 500000 := by
    rw [EnhancedCost.total_cost_def, ai_refine_none, enh_subtotal_eval, enh_contingency0_eval,
      enh_total0_eval, enh_cap_eval]
  have h2 : (EnhancedCost.calculate_repair_cost 0 0 100 "residential" Option.none [] 1
      Option.none).componentSum = 982000 := by
    rw [EnhancedCost.componentSum_def, enh_subtotal_eval]
  have h3 : (EnhancedCost.calculate_repair_cost 0 0 100 "residential" Option.none [] 1
      Option.none).contingency = 0 := by
    rw [EnhancedCost.contingency_def, enh_subtotal_eval, enh_contingency0_eval,
      enh_total0_eval, enh_cap_eval]
  refine ⟨h1, h2, h3, ?_⟩
  rw [h1, h2, h3]
  norm_num

end DASPER

namespace DASPER.VolumeCost

/-! ## Helper lemmas: the unit-basis selection -/

lemma structural_field (sev dmg area : ℝ) (bt : String) (rd : Option RegionalData)
    (dts : List String) (conf : ℝ) (ai : Option ℝ) (height volume : Option ℝ)
    (rc : Option RegionalCosts) (re : Option ℤ) :
    (calculate_repair_cost sev dmg area bt rd dts conf ai height volume rc re).structural_cost =
      structural_pre sev dmg area bt (building_volume area volume height) rc *
        regional_multiplier rd * dm_val dts := rfl

/-- A computed building volume exists exactly when a positive volume was
supplied or a positive height was supplied. -/
lemma building_volume_some_iff (area : ℝ) (volume height : Option ℝ) :
    (∃ w, building_volume area volume height = some w) ↔
      (∃ v, volume = some v ∧ 0 < v) ∨ (∃ h, height = some h ∧ 0 < h) := by
  cases volume with
  | some v =>
      by_cases hv : 0 < v
      · simp [building_volume, hv]
      · cases height with
        | some hh =>
            by_cases hh0 : 0 < hh <;>
              simp [building_volume, derived_volume, hv, hh0]
        | none => simp [building_volume, derived_volume, hv]
  | none =>
      cases height with
      | some hh =>
          by_cases hh0 : 0 < hh <;>
            simp [building_volume, derived_volume, hh0]
      | none => simp [building_volume, derived_volume]

end DASPER.VolumeCost

namespace DASPER

/-- C6 (corrected): the volume engine reports `calculation_method ==
'volume_based'` exactly when a positive `building_volume_cubic_m` is supplied
or a positive `building_height_m` is supplied (the volume then being the
supplied one, or derived as `area * height`), and `'area_based'` otherwise;
whenever no Gemini `regional_costs` override is supplied, the structural
component is computed from the per-cubic-meter table in the first case and
the per-square-meter table in the second. In particular the claimed scenario
(severity 0.5, damage ratio 0.5, area 100 m², no height or volume) reports
`'area_based'`. (The unrestricted "uses the per-cubic-meter cost tables"
claim fails on the Gemini path, see the counterexample.) -/
theorem unit_basis_selection_amended (sev dmg area : ℝ) (bt : String)
    (rdV : Option VolumeCost.RegionalData) (dts : List String) (conf : ℝ) (ai : Option ℝ)
    (height volume : Option ℝ) (rc : Option VolumeCost.RegionalCosts) (re : Option ℤ) :
    ((VolumeCost.calculate_repair_cost sev dmg area bt rdV dts conf ai height volume rc
          re).calculation_method = "volume_based" ↔
        (∃ v, volume = some v ∧ 0 < v) ∨ (∃ h, height = some h ∧ 0 < h)) ∧
      ((VolumeCost.calculate_repair_cost sev dmg area bt rdV dts conf ai height volume rc
          re).calculation_method = "area_based" ↔
        ¬((∃ v, volume = some v ∧ 0 < v) ∨ (∃ h, height = some h ∧ 0 < h))) ∧
      (rc = Option.none →
        (∀ v, VolumeCost.building_volume area volume height = some v →
          (VolumeCost.calculate_repair_cost sev dmg area bt rdV dts conf ai height volume rc
              re).structural_cost =
            VolumeCost.component_cost sev dmg v (VolumeCost.base_volume_costs bt).structural *
              VolumeCost.regional_multiplier rdV * dm_val dts) ∧
        (VolumeCost.building_volume area volume height = Option.none →
          (VolumeCost.calculate_repair_cost sev dmg area bt rdV dts conf ai height volume rc
              re).structural_cost =
            VolumeCost.component_cost sev dmg area (VolumeCost.base_area_costs bt).structural *
              VolumeCost.regional_multiplier rdV * dm_val dts)) ∧
      (VolumeCost.calculate_repair_cost 0.5 0.5 100 "residential" Option.none [] 1 Option.none
          Option.none Option.none Option.none Option.none).calculation_method = "area_based" := by
  refine ⟨?_, ?_, ?_, rfl⟩
  · cases hbv : VolumeCost.building_volume area volume height with
    | some w =>
        have hm : (VolumeCost.calculate_repair_cost sev dmg area bt rdV dts conf ai height
            volume rc re).calculation_method = "volume_based" := by
          show (match VolumeCost.building_volume area volume height with
            | some _ => "volume_based"
            | Option.none => "area_based") = "volume_based"
          rw [hbv]
        rw [hm]
        simp only [true_iff]
        exact (VolumeCost.building_volume_some_iff area volume height).mp ⟨w, hbv⟩
    | none =>
        have hm : (VolumeCost.calculate_repair_cost sev dmg area bt rdV dts conf ai height
            volume rc re).calculation_method = "area_based" := by
          show (match VolumeCost.building_volume area volume height with
            | some _ => "volume_based"
            | Option.none => "area_based") = "area_based"
          rw [hbv]
        rw [hm]
        constructor
        · intro h
          exact absurd h (by simp)
        · intro h
          obtain ⟨w, hw⟩ := (VolumeCost.building_volume_some_iff area volume height).mpr h
          rw [hw] at hbv
          exact absurd hbv (by simp)
  · cases hbv : VolumeCost.building_volume area volume height with
    | some w =>
        have hm : (VolumeCost.calculate_repair_cost sev dmg area bt rdV dts conf ai height
            volume rc re).calculation_method = "volume_based" := by
          show (match VolumeCost.building_volume area volume height with
            | some _ => "volume_based"
            | Option.none => "area_based") = "volume_based"
          rw [hbv]
        rw [hm]
        constructor
        · intro h
          exact absurd h (by simp)
        · intro h
          exact absurd ((VolumeCost.building_volume_some_iff area volume height).mp ⟨w, hbv⟩)
            h
    | none =>
        have hm : (VolumeCost.calculate_repair_cost sev dmg area bt rdV dts conf ai height
            volume rc re).calculation_method = "area_based" := by
          show (match VolumeCost.building_volume area volume height with
            | some _ => "volume_based"
            | Option.none => "area_based") = "area_based"
          rw [hbv]
        rw [hm]
        simp only [true_iff]
        intro h
        obtain ⟨w, hw⟩ := (VolumeCost.building_volume_some_iff area volume height).mpr h
        rw [hw] at hbv
        exact absurd hbv (by simp)
  · intro hrc
    subst hrc
    constructor
    · intro v hv
      rw [VolumeCost.structural_field, hv]
      rfl
    · intro hv
      rw [VolumeCost.structural_field, hv]
      rfl

/-- Witness for the amended C6 theorem at a concrete volume-based and the
claimed area-based scenario. -/
theorem unit_basis_selection_amended_witness :
    (VolumeCost.calculate_repair_cost 0.5 0.5 100 "residential" Option.none [] 1 Option.none
        Option.none Option.none Option.none Option.none).calculation_method = "area_based" ∧
      (VolumeCost.calculate_repair_cost 0.5 0.5 100 "residential" Option.none [] 1 Option.none
          Option.none (some 300) Option.none Option.none).calculation_method =
        "volume_based" := by
  constructor
  · exact (unit_basis_selection_amended 0.5 0.5 100 "residential" Option.none [] 1
      Option.none Option.none Option.none Option.none Option.none).2.2.2
  · exact ((unit_basis_selection_amended 0.5 0.5 100 "residential" Option.none [] 1
      Option.none Option.none (some 300) Option.none Option.none).1).mpr
      (Or.inl ⟨300, rfl, by norm_num⟩)

lemma vol_base_volume_res :
    VolumeCost.base_volume_costs "residential" = ⟨⟨1200, 3000⟩, ⟨600, 1500⟩, ⟨300, 800⟩⟩ := by
  simp [VolumeCost.base_volume_costs]

lemma vol_bv_eval : VolumeCost.building_volume 100 (some 300) Option.none = some 300 := by
  norm_num [VolumeCost.building_volume]

/-- C6 (counterexample): with a positive supplied volume but a Gemini
`regional_costs` override, the engine reports `'volume_based'` yet the
structural cost is not computed from the per-cubic-meter table: at severity
0, damage ratio 0, area 100, volume 300, the Gemini formula returns 0 while
the table formula yields 360000 PKR. -/
theorem unit_basis_counterexample :
    ((VolumeCost.calculate_repair_cost 0 0 100 "residential" Option.none [] 1 Option.none
        Option.none (some 300) (some ⟨Option.none, Option.none, Option.none, 1⟩)
        Option.none).calculation_method = "volume_based") ∧
      ((VolumeCost.calculate_repair_cost 0 0 100 "residential" Option.none [] 1 Option.none
        Option.none (some 300) (some ⟨Option.none, Option.none, Option.none, 1⟩)
        Option.none).structural_cost = 0) ∧
      (VolumeCost.component_cost 0 0 300
          (VolumeCost.base_volume_costs "residential").structural *
          VolumeCost.regional_multiplier Option.none * dm_val [] = 360000) ∧
      ((VolumeCost.calculate_repair_cost 0 0 100 "residential" Option.none [] 1 Option.none
          Option.none (some 300) (some ⟨Option.none, Option.none, Option.none, 1⟩)
          Option.none).structural_cost ≠
        VolumeCost.component_cost 0 0 300
            (VolumeCost.base_volume_costs "residential").structural *
          VolumeCost.regional_multiplier Option.none * dm_val []) := by
  have h15 : (0:ℝ) ^ (1.5:ℝ) = 0 := Real.zero_rpow (by norm_num)
  have h13 : (0:ℝ) ^ (1.3:ℝ) = 0 := Real.zero_rpow (by norm_num)
  have htab : VolumeCost.component_cost 0 0 300
      (VolumeCost.base_volume_costs "residential").structural *
      VolumeCost.regional_multiplier Option.none * dm_val [] = 360000 := by
    rw [vol_base_volume_res, dm_val_nil]
    norm_num [VolumeCost.component_cost, VolumeCost.regional_multiplier, h15, h13]
  have hstruct : (VolumeCost.calculate_repair_cost 0 0 100 "residential" Option.none [] 1
      Option.none Option.none (some 300) (some ⟨Option.none, Option.none, Option.none, 1⟩)
      Option.none).structural_cost = 0 := by
    rw [VolumeCost.structural_field, vol_bv_eval, dm_val_nil]
    norm_num [VolumeCost.structural_pre, VolumeCost.regional_component_cost,
      VolumeCost.base_cost_lookup, VolumeCost.regional_multiplier]
  refine ⟨?_, hstruct, htab, ?_⟩
  · show (match VolumeCost.building_volume 100 (some 300) Option.none with
      | some _ => "volume_based"
      | Option.none => "area_based") = "volume_based"
    rw [vol_bv_eval]
  · rw [hstruct, htab]
    norm_num

end DASPER

namespace DASPER

/-- C7 (confirmed): the damage-type multiplier equals the maximum table
multiplier whose keyword occurs as a substring of some supplied (lowercased)
damage-type string, floored at 1.0 (and 1.0 when no damage types are given);
the table carries `collapse -> 1.4`, `earthquake -> 1.3`, `cracks -> 1.02`;
and both engines apply the multiplier at full strength to the structural
cost, at 80% strength (`* (dm * 0.8)`) to the non-structural cost and at 60%
strength (`* (dm * 0.6)`) to the content cost. -/
theorem damage_multiplier_characterisation :
    (∀ dts, calculate_damage_multiplier dts = damage_multiplier_spec dts) ∧
      calculate_damage_multiplier [] = 1 ∧
      ("collapse", (1.4 : ℚ)) ∈ damage_multipliers ∧
      ("earthquake", (1.3 : ℚ)) ∈ damage_multipliers ∧
      ("cracks", (1.02 : ℚ)) ∈ damage_multipliers ∧
      (∀ (sev dmg area : ℝ) (bt : String) (rd : Option RegionalProfile)
        (dts : List String) (conf : ℝ) (ai : Option ℝ),
        (EnhancedCost.calculate_repair_cost sev dmg area bt rd dts conf
              ai).structural_cost =
            EnhancedCost.structural_base sev dmg area bt *
              EnhancedCost.regional_multiplier rd * dm_val dts ∧
          (EnhancedCost.calculate_repair_cost sev dmg area bt rd dts conf
              ai).non_structural_cost =
            EnhancedCost.non_structural_base sev dmg area bt *
              EnhancedCost.regional_multiplier rd * (dm_val dts * 0.8) ∧
          (EnhancedCost.calculate_repair_cost sev dmg area bt rd dts conf
              ai).content_cost =
            EnhancedCost.content_base sev dmg area bt *
              EnhancedCost.regional_multiplier rd * (dm_val dts * 0.6)) ∧
      (∀ (sev dmg area : ℝ) (bt : String) (rdV : Option VolumeCost.RegionalData)
        (dts : List String) (conf : ℝ) (ai : Option ℝ) (height volume : Option ℝ)
        (rc : Option VolumeCost.RegionalCosts) (re : Option ℤ),
        (VolumeCost.calculate_repair_cost sev dmg area bt rdV dts conf ai height volume rc
              re).structural_cost =
            VolumeCost.structural_pre sev dmg area bt
                (VolumeCost.building_volume area volume height) rc *
              VolumeCost.regional_multiplier rdV * dm_val dts ∧
          (VolumeCost.calculate_repair_cost sev dmg area bt rdV dts conf ai height volume rc
              re).non_structural_cost =
            VolumeCost.non_structural_pre sev dmg area bt
                (VolumeCost.building_volume area volume height) rc *
              VolumeCost.regional_multiplier rdV * (dm_val dts * 0.8) ∧
          (VolumeCost.calculate_repair_cost sev dmg area bt rdV dts conf ai height volume rc
              re).content_cost =
            VolumeCost.content_pre sev dmg area bt
                (VolumeCost.building_volume area volume height) rc *
              VolumeCost.regional_multiplier rdV * (dm_val dts * 0.6)) := by
  refine ⟨damage_multiplier_eq_spec, rfl, ?_, ?_, ?_, ?_, ?_⟩
  · simp [damage_multipliers]
  · simp [damage_multipliers]
  · simp [damage_multipliers]
  · intro sev dmg area bt rd dts conf ai
    exact ⟨rfl, rfl, rfl⟩
  · intro sev dmg area bt rdV dts conf ai height volume rc re
    exact ⟨rfl, rfl, rfl⟩

/-- C10 (confirmed): the damage-type multiplier always lies in `[1.0, 1.4]`
(the `collapse` entry being the table maximum) and extending the damage-type
list never decreases it. -/
theorem damage_multiplier_bounded_monotone (l ext : List String) :
    (1 ≤ calculate_damage_multiplier l ∧ calculate_damage_multiplier l ≤ 1.4) ∧
      calculate_damage_multiplier l ≤ calculate_damage_multiplier (l ++ ext) := by
  refine ⟨⟨one_le_damage_multiplier l, damage_multiplier_le l⟩, ?_⟩
  by_cases hl : l.isEmpty = true
  · have hnil : l = [] := by
      rwa [List.isEmpty_iff] at hl
    subst hnil
    show calculate_damage_multiplier [] ≤ calculate_damage_multiplier ext
    exact le_trans (le_of_eq rfl) (one_le_damage_multiplier ext)
  · have hl2 : ¬(l ++ ext).isEmpty = true := by
      intro hcontra
      rw [List.isEmpty_iff, List.append_eq_nil] at hcontra
      rw [List.isEmpty_iff] at hl
      exact hl hcontra.1
    unfold calculate_damage_multiplier
    rw [if_neg hl, if_neg hl2, List.foldl_append]
    exact le_outer_fold ext _

end DASPER

namespace DASPER

/-! ## Helper lemmas: fusion tables and clipping -/

lemma clip_mem (x lo hi : ℚ) (h : lo ≤ hi) : lo ≤ clip x lo hi ∧ clip x lo hi ≤ hi := by
  unfold clip
  exact ⟨le_min (le_max_right x lo) h, min_le_right _ _⟩

lemma adjust_bounds {v lo hi df : ℚ} (h1 : lo ≤ v) (h2 : v ≤ hi) (hlo : 0 ≤ lo)
    (hdf0 : 0 ≤ df) (hdf1 : df ≤ 1/2) :
    lo ≤ v * (1 + df * 0.1) ∧ v * (1 + df * 0.1) ≤ hi * (21/20) := by
  have hv0 : 0 ≤ v := le_trans hlo h1
  constructor
  · nlinarith
  · nlinarith

lemma area_defaults_wf (bt rt : String) :
    0 ≤ (AreaEst.get_defaults bt rt).min ∧
      (AreaEst.get_defaults bt rt).min ≤ (AreaEst.get_defaults bt rt).avg ∧
      (AreaEst.get_defaults bt rt).avg ≤ (AreaEst.get_defaults bt rt).max := by
  unfold AreaEst.get_defaults AreaEst.residentialDefaults AreaEst.commercialDefaults
    AreaEst.industrialDefaults
  split_ifs <;> norm_num

lemma enh_area_defaults_bounds (bt rt : String) :
    1 ≤ (EnhAreaEst.get_area_defaults bt rt).avg ∧
      (EnhAreaEst.get_area_defaults bt rt).avg ≤ 100000 := by
  unfold EnhAreaEst.get_area_defaults EnhAreaEst.residentialDefaults
    EnhAreaEst.commercialDefaults EnhAreaEst.industrialDefaults
  split_ifs <;> norm_num

lemma height_defaults_bounds (bt rt : String) :
    0.5 ≤ (HeightEst.get_height_defaults bt rt).avg ∧
      (HeightEst.get_height_defaults bt rt).avg ≤ 1000 := by
  unfold HeightEst.get_height_defaults HeightEst.residentialDefaults
    HeightEst.commercialDefaults HeightEst.industrialDefaults
  split_ifs <;> norm_num

lemma snap_bounds (w lo hi a b : ℚ) (ha1 : lo ≤ a) (ha2 : a ≤ hi) (hb1 : lo ≤ b)
    (hb2 : b ≤ hi) :
    lo ≤ (if w < lo then a else if hi < w then b else w) ∧
      (if w < lo then a else if hi < w then b else w) ≤ hi := by
  split_ifs with h1 h2
  · exact ⟨ha1, ha2⟩
  · exact ⟨hb1, hb2⟩
  · exact ⟨not_lt.mp h1, not_lt.mp h2⟩

/-- C4 (corrected): in both fusion sites non-positive estimates are filtered
out; with zero surviving estimates the method is `default_fallback`, the
confidence is exactly 0.3 and the value is the type/region default average
(scaled by the damage-impact adjustment in the area estimator); with exactly
one surviving estimate the confidence is 0.5 (not 1.0 as claimed); with two
or more it is `clip(1/(1 + variance/K), 0.3, hi)` with `K = 1000, hi = 0.95`
for area and `K = 10, hi = 0.9` (not 0.95) for height. -/
theorem fusion_confidence_amended :
    (∀ (e s f : ℚ) (bt rt : String) (df : ℚ),
        (AreaEst.estimate_area e s f bt rt df).confidence =
          (if ([e, s, f].filter (fun x => 0 < x)).length = 0 then 0.3
           else if ([e, s, f].filter (fun x => 0 < x)).length = 1 then 0.5
           else clip (1 / (1 + listVar ([e, s, f].filter (fun x => 0 < x)) / 1000))
             0.3 0.95) ∧
        (AreaEst.estimate_area e s f bt rt df).method =
          (if ([e, s, f].filter (fun x => 0 < x)).length = 0 then "default_fallback"
           else "multi_method_fusion") ∧
        (([e, s, f].filter (fun x => 0 < x)).length = 0 →
          (AreaEst.estimate_area e s f bt rt df).value =
            (AreaEst.get_defaults bt rt).avg * (1 + df * 0.1))) ∧
    (∀ (d sh p fe : ℚ) (bt rt : String),
        (HeightEst.estimate_building_height d sh p fe bt rt).confidence =
          (if ([d, sh, p, fe].filter (fun x => 0 < x)).length = 0 then 0.3
           else if ([d, sh, p, fe].filter (fun x => 0 < x)).length = 1 then 0.5
           else clip (1 / (1 + listVar ([d, sh, p, fe].filter (fun x => 0 < x)) / 10))
             0.3 0.9) ∧
        (HeightEst.estimate_building_height d sh p fe bt rt).method =
          (if ([d, sh, p, fe].filter (fun x => 0 < x)).length = 0 then "default_fallback"
           else "multi_method_fusion") ∧
        (([d, sh, p, fe].filter (fun x => 0 < x)).length = 0 →
          (HeightEst.estimate_building_height d sh p fe bt rt).value =
            (HeightEst.get_height_defaults bt rt).avg)) := by
  constructor
  · intro e s f bt rt df
    by_cases hE : ([e, s, f].filter (fun x => 0 < x)).isEmpty = true
    · have hnil : [e, s, f].filter (fun x => 0 < x) = [] := by
        rwa [List.isEmpty_iff] at hE
      refine ⟨?_, ?_, fun _ => ?_⟩ <;> simp [AreaEst.estimate_area, hE, hnil]
    · have hnz : ([e, s, f].filter (fun x => 0 < x)).length ≠ 0 := by
        rw [List.isEmpty_iff] at hE
        simpa [List.length_eq_zero] using hE
      by_cases h1 : 1 < ([e, s, f].filter (fun x => 0 < x)).length
      · have hne1 : ([e, s, f].filter (fun x => 0 < x)).length ≠ 1 := by omega
        refine ⟨?_, ?_, fun hc => absurd hc hnz⟩ <;>
          simp [AreaEst.estimate_area, hE, h1, hnz, hne1]
      · refine ⟨?_, ?_, fun hc => absurd hc hnz⟩ <;>
          · have hlen1 : ([e, s, f].filter (fun x => 0 < x)).length = 1 := by omega
            simp [AreaEst.estimate_area, hE, h1, hnz, hlen1]
  · intro d sh p fe bt rt
    by_cases hE : ([d, sh, p, fe].filter (fun x => 0 < x)).isEmpty = true
    · have hnil : [d, sh, p, fe].filter (fun x => 0 < x) = [] := by
        rwa [List.isEmpty_iff] at hE
      refine ⟨?_, ?_, fun _ => ?_⟩ <;> simp [HeightEst.estimate_building_height, hE, hnil]
    · have hnz : ([d, sh, p, fe].filter (fun x => 0 < x)).length ≠ 0 := by
        rw [List.isEmpty_iff] at hE
        simpa [List.length_eq_zero] using hE
      by_cases h1 : 1 < ([d, sh, p, fe].filter (fun x => 0 < x)).length
      · have hne1 : ([d, sh, p, fe].filter (fun x => 0 < x)).length ≠ 1 := by omega
        refine ⟨?_, ?_, fun hc => absurd hc hnz⟩ <;>
          simp [HeightEst.estimate_building_height, hE, h1, hnz, hne1]
      · refine ⟨?_, ?_, fun hc => absurd hc hnz⟩ <;>
          · have hlen1 : ([d, sh, p, fe].filter (fun x => 0 < x)).length = 1 := by omega
            simp [HeightEst.estimate_building_height, hE, h1, hnz, hlen1]

/-- Witness for the amended C4 theorem: the all-abstained fallback and the
single-estimate case of the area fusion. -/
theorem fusion_confidence_amended_witness :
    (AreaEst.estimate_area 0 0 0 "residential" "default" 0).confidence = 0.3 ∧
      (AreaEst.estimate_area 0 0 0 "residential" "default" 0).method = "default_fallback" ∧
      (AreaEst.estimate_area 100 0 0 "residential" "default" 0).confidence = 0.5 := by
  have hlen0 : (([0, 0, 0] : List ℚ).filter (fun x => 0 < x)).length = 0 := by
    norm_num [List.filter_cons, decide_eq_true_eq]
  have hlen1 : (([100, 0, 0] : List ℚ).filter (fun x => 0 < x)).length = 1 := by
    norm_num [List.filter_cons, decide_eq_true_eq]
  obtain ⟨hc0, hm0, _⟩ := fusion_confidence_amended.1 0 0 0 "residential" "default" 0
  obtain ⟨hc1, _, _⟩ := fusion_confidence_amended.1 100 0 0 "residential" "default" 0
  refine ⟨?_, ?_, ?_⟩
  · rw [hc0, if_pos hlen0]
  · rw [hm0, if_pos hlen0]
  · rw [hc1, if_neg (by omega : ¬(([100, 0, 0] : List ℚ).filter (fun x => 0 < x)).length = 0),
      if_pos hlen1]

/-- C4 (counterexample): with exactly one positive raw estimate the area
fusion returns confidence 0.5, not the claimed 1.0. -/
theorem fusion_confidence_counterexample :
    (([100, 0, 0] : List ℚ).filter (fun x => 0 < x)).length = 1 ∧
      (AreaEst.estimate_area 100 0 0 "residential" "default" 0).confidence ≠ 1 := by
  constructor
  · norm_num [List.filter_cons, decide_eq_true_eq]
  · norm_num [AreaEst.estimate_area, List.filter_cons, decide_eq_true_eq]

end DASPER

namespace DASPER

/-- C5 (corrected): the bounding behaviour each estimator actually enforces.
The area estimator clamps the fused value to the building-type/region
`{min, max}` lookup bound, but then multiplies by the damage-impact
adjustment `1 + damage_factor * 0.1` (with `damage_factor ∈ [0, 0.5]`), so
the returned value lies in `[min, max * 1.05]` — it can exceed the lookup
maximum by up to 5% (see the counterexample). The enhanced analyzer's area
fusion keeps every returned value inside the global sanity band
`[1, 100000] m²` (out-of-band fused values are snapped to the secondary
defaults 50 resp. 10000), and the height fusion inside `[0.5, 1000] m`
(snapped to 2.0 resp. 100.0). -/
theorem geometry_bounds_amended :
    (∀ (e s f : ℚ) (bt rt : String) (df : ℚ), 0 ≤ df → df ≤ 1/2 →
        (AreaEst.get_defaults bt rt).min ≤ (AreaEst.estimate_area e s f bt rt df).value ∧
        (AreaEst.estimate_area e s f bt rt df).value ≤
          (AreaEst.get_defaults bt rt).max * (21/20)) ∧
    (∀ (t s e : ℚ) (bt rt : String),
        1 ≤ (EnhAreaEst.estimate_building_area t s e bt rt).value ∧
        (EnhAreaEst.estimate_building_area t s e bt rt).value ≤ 100000) ∧
    (∀ (d sh p fe : ℚ) (bt rt : String),
        0.5 ≤ (HeightEst.estimate_building_height d sh p fe bt rt).value ∧
        (HeightEst.estimate_building_height d sh p fe bt rt).value ≤ 1000) := by
  refine ⟨?_, ?_, ?_⟩
  · intro e s f bt rt df hdf0 hdf1
    obtain ⟨hm0, hm1, hm2⟩ := area_defaults_wf bt rt
    by_cases hE : ([e, s, f].filter (fun x => 0 < x)).isEmpty = true
    · have hv : (AreaEst.estimate_area e s f bt rt df).value =
          (AreaEst.get_defaults bt rt).avg * (1 + df * 0.1) := by
        simp [AreaEst.estimate_area, hE]
      rw [hv]
      exact adjust_bounds hm1 hm2 hm0 hdf0 hdf1
    · have hv : (AreaEst.estimate_area e s f bt rt df).value =
          clip (weightedAverage [0.3, 0.4, 0.3] ([e, s, f].filter (fun x => 0 < x)))
            (AreaEst.get_defaults bt rt).min (AreaEst.get_defaults bt rt).max *
            (1 + df * 0.1) := by
        simp [AreaEst.estimate_area, hE]
      obtain ⟨hc1, hc2⟩ := clip_mem (weightedAverage [0.3, 0.4, 0.3]
        ([e, s, f].filter (fun x => 0 < x))) _ _ (le_trans hm1 hm2)
      rw [hv]
      exact adjust_bounds hc1 hc2 hm0 hdf0 hdf1
  · intro t s e bt rt
    by_cases hE : ([t, s, e].filter (fun x => 0 < x)).isEmpty = true
    · have hv : (EnhAreaEst.estimate_building_area t s e bt rt).value =
          (EnhAreaEst.get_area_defaults bt rt).avg := by
        simp [EnhAreaEst.estimate_building_area, hE]
      rw [hv]
      exact enh_area_defaults_bounds bt rt
    · have hv : (EnhAreaEst.estimate_building_area t s e bt rt).value =
          (if weightedAverage (if 0 < s then
              if 2 < |s - t| / t then [0.7, 0.2, 0.1] else [0.4, 0.4, 0.2]
            else [0.6, 0, 0.4]) ([t, s, e].filter (fun x => 0 < x)) < 1 then (50 : ℚ)
           else if 100000 < weightedAverage (if 0 < s then
              if 2 < |s - t| / t then [0.7, 0.2, 0.1] else [0.4, 0.4, 0.2]
            else [0.6, 0, 0.4]) ([t, s, e].filter (fun x => 0 < x)) then (10000 : ℚ)
           else weightedAverage (if 0 < s then
              if 2 < |s - t| / t then [0.7, 0.2, 0.1] else [0.4, 0.4, 0.2]
            else [0.6, 0, 0.4]) ([t, s, e].filter (fun x => 0 < x))) := by
        simp [EnhAreaEst.estimate_building_area, hE]
      rw [hv]
      exact snap_bounds _ _ _ _ _ (by norm_num) (by norm_num) (by norm_num) (by norm_num)
  · intro d sh p fe bt rt
    by_cases hE : ([d, sh, p, fe].filter (fun x => 0 < x)).isEmpty = true
    · have hv : (HeightEst.estimate_building_height d sh p fe bt rt).value =
          (HeightEst.get_height_defaults bt rt).avg := by
        simp [HeightEst.estimate_building_height, hE]
      rw [hv]
      exact height_defaults_bounds bt rt
    · have hv : (HeightEst.estimate_building_height d sh p fe bt rt).value =
          (if weightedAverage (if 0 < d then [0.4, 0.2, 0.2, 0.2] else [0.3, 0.3, 0.4])
              ([d, sh, p, fe].filter (fun x => 0 < x)) < 0.5 then (2 : ℚ)
           else if 1000 < weightedAverage (if 0 < d then [0.4, 0.2, 0.2, 0.2]
              else [0.3, 0.3, 0.4]) ([d, sh, p, fe].filter (fun x => 0 < x)) then (100 : ℚ)
           else weightedAverage (if 0 < d then [0.4, 0.2, 0.2, 0.2] else [0.3, 0.3, 0.4])
              ([d, sh, p, fe].filter (fun x => 0 < x))) := by
        simp [HeightEst.estimate_building_height, hE]
      rw [hv]
      exact snap_bounds _ _ _ _ _ (by norm_num) (by norm_num) (by norm_num) (by norm_num)

/-- Witness for the amended C5 theorem: the area estimator at a concrete
over-range single estimate with maximal damage factor. -/
theorem geometry_bounds_amended_witness :
    (0 : ℚ) ≤ 1/2 ∧ (1 : ℚ)/2 ≤ 1/2 ∧
      (AreaEst.get_defaults "residential" "Pakistan_Urban").min ≤
        (AreaEst.estimate_area 1000 0 0 "residential" "Pakistan_Urban" (1/2)).value ∧
      (AreaEst.estimate_area 1000 0 0 "residential" "Pakistan_Urban" (1/2)).value ≤
        (AreaEst.get_defaults "residential" "Pakistan_Urban").max * (21/20) := by
  have h := (geometry_bounds_amended.1 1000 0 0 "residential" "Pakistan_Urban" (1/2)
    (by norm_num) (by norm_num))
  exact ⟨by norm_num, by norm_num, h.1, h.2⟩

/-- C5 (counterexample): with a single raw estimate of 1000 m² the fused
value is clipped to the urban-residential lookup maximum 500 m², but the
damage-impact adjustment (damage factor 0.5) then lifts the returned value to
525 m² — outside the `{min, max}` lookup bound the claim asserts. -/
theorem geometry_bounds_counterexample :
    (AreaEst.estimate_area 1000 0 0 "residential" "Pakistan_Urban" (1/2)).value = 525 ∧
      (AreaEst.get_defaults "residential" "Pakistan_Urban").max = 500 ∧
      ¬((AreaEst.estimate_area 1000 0 0 "residential" "Pakistan_Urban" (1/2)).value ≤
        (AreaEst.get_defaults "residential" "Pakistan_Urban").max) := by
  have hd : AreaEst.get_defaults "residential" "Pakistan_Urban" = ⟨80, 150, 500⟩ := by
    simp [AreaEst.get_defaults, AreaEst.residentialDefaults]
  have hv : (AreaEst.estimate_area 1000 0 0 "residential" "Pakistan_Urban" (1/2)).value =
      525 := by
    norm_num [AreaEst.estimate_area, hd, weightedAverage, clip, List.filter_cons,
      decide_eq_true_eq, min_def, max_def]
  refine ⟨hv, by rw [hd], ?_⟩
  rw [hv, hd]
  norm_num

end DASPER

namespace DASPER.Manager

/-! ## Helper lemmas: checkout on a loaded bundle -/

/-- A checkout against a loaded bundle reloads nothing: only `last_used` and
the inference counter move. -/
lemma checkout_loaded (t : ℕ) (s : ManagerState) (h : s.loaded = true) :
    checkout true t s =
      .ok { s with lastUsed := some t, inferenceCount := s.inferenceCount + 1 } := by
  unfold checkout load_models
  rw [if_pos h]

/-- A serialised sequence of checkouts against a loaded bundle keeps it
loaded and never touches the load counter. -/
lemma checkout_seq_loaded (ts : List ℕ) :
    ∀ s : ManagerState, s.loaded = true →
      ∃ s2, checkout_seq true ts s = .ok s2 ∧ s2.loaded = true ∧
        s2.loadCount = s.loadCount := by
  induction ts with
  | nil =>
      intro s h
      exact ⟨s, rfl, h, rfl⟩
  | cons t rest ih =>
      intro s h
      obtain ⟨s2, h2, h3, h4⟩ :=
        ih { s with lastUsed := some t, inferenceCount := s.inferenceCount + 1 } h
      refine ⟨s2, ?_, h3, h4⟩
      unfold checkout_seq
      rw [checkout_loaded t s h]
      exact h2

end DASPER.Manager

namespace DASPER

/-- C8 (confirmed): after `force_unload()` the status reports the bundle
unloaded, and the next (successful) `checkout()` returns it to the loaded
state with the load counter incremented by exactly one. -/
theorem force_unload_checkout_cycle (s : Manager.ManagerState) (t : ℕ) :
    (Manager.get_status (Manager.force_unload s)).models_loaded = false ∧
      ∃ s2, Manager.checkout true t (Manager.force_unload s) = .ok s2 ∧
        s2.loaded = true ∧ s2.loadCount = s.loadCount + 1 ∧
        (Manager.get_status s2).models_loaded = true := by
  by_cases h : s.loaded = true
  · refine ⟨?_,
      ⟨⟨true, s.loadCount + 1, s.unloadCount + 1, s.inferenceCount + 1, some t⟩,
        ?_, rfl, rfl, rfl⟩⟩
    · simp [Manager.force_unload, Manager.unload_models, Manager.get_status, h]
    · simp [Manager.force_unload, Manager.unload_models, Manager.checkout,
        Manager.load_models, h]
  · refine ⟨?_,
      ⟨⟨true, s.loadCount + 1, s.unloadCount, s.inferenceCount + 1, some t⟩,
        ?_, rfl, rfl, rfl⟩⟩
    · simp [Manager.force_unload, Manager.unload_models, Manager.get_status, h]
    · simp [Manager.force_unload, Manager.unload_models, Manager.checkout,
        Manager.load_models, h]

/-- C9 (confirmed): any number of simultaneous checkouts against an unloaded
bundle — serialised in some order by the manager's re-entrant lock, and hence
equal to this fold of their critical sections — performs exactly one load:
the load counter increments by 1, not by the number of callers. -/
theorem concurrent_checkout_single_flight (ts : List ℕ) (s : Manager.ManagerState)
    (hunloaded : s.loaded = false) (hne : ts ≠ []) :
    ∃ s2, Manager.checkout_seq true ts s = .ok s2 ∧ s2.loaded = true ∧
      s2.loadCount = s.loadCount + 1 := by
  match ts with
  | [] => exact absurd rfl hne
  | t :: rest =>
      have hstep : Manager.checkout true t s =
          .ok ⟨true, s.loadCount + 1, s.unloadCount, s.inferenceCount + 1, some t⟩ := by
        simp [Manager.checkout, Manager.load_models, hunloaded]
      obtain ⟨s2, h2, h3, h4⟩ := Manager.checkout_seq_loaded rest
        ⟨true, s.loadCount + 1, s.unloadCount, s.inferenceCount + 1, some t⟩ rfl
      refine ⟨s2, ?_, h3, by simpa using h4⟩
      unfold Manager.checkout_seq
      rw [hstep]
      exact h2

/-- Witness for the C9 theorem: three simultaneous checkouts from the
initial (unloaded) manager state load exactly once. -/
theorem concurrent_checkout_single_flight_witness :
    ∃ s2, Manager.checkout_seq true [0, 1, 2] Manager.initial_state = .ok s2 ∧
      s2.loaded = true ∧ s2.loadCount = Manager.initial_state.loadCount + 1 :=
  concurrent_checkout_single_flight [0, 1, 2] Manager.initial_state rfl (by simp)

/-- C3 (code bug): the error policy fails on a null `severity_score`. The
body's first `float(severity_score)` raises, and the `except` handler itself
recomputes `float(building_area_sqm) * 500 * float(severity_score)`, whose
second conversion raises again — so a `TypeError` propagates to the caller
instead of the claimed fallback breakdown. -/
theorem error_policy_null_severity_propagates :
    EnhancedCost.calculate_repair_cost_py PyVal.none (.float 0.5) (.float 100) (.float 1)
        "residential" Option.none [] Option.none =
      .error "TypeError: float() argument must be a string or a number, not NoneType" := rfl

/-- The recovery path the policy intends does work when the fallback's own
conversions succeed: a malformed (non-numeric) `materials` entry in the
regional profile makes the body raise, and the engine returns the
fixed-formula fallback breakdown tagged `fallback_used` with the error
message. -/
theorem error_policy_malformed_profile_recovers :
    EnhancedCost.calculate_repair_cost_py (.float 0.5) (.float 0.4) (.float 100) (.float 1)
        "residential" (some [("materials", .str "n/a")]) [] Option.none =
      .ok ⟨EnhancedCost.fallback_breakdown 100 0.5, true,
        some "ValueError: could not convert string to float"⟩ := by
  rfl

end DASPER
